import Mathlib

/-!
Shallow embedding of the event-classification and risk-aggregation core of the
`daily-safety-report` repository (Python sources `daily_casing_camera_report.py`,
`daily_speeding_report.py`, `weekly_casing_briefing.py`), together with proofs
about that embedding.  Python dictionaries are modelled as association lists
(preserving insertion order), Python floats as exact rationals, and Python
exceptions as an `Except` monad.  The local timezone is modelled with the
fixed UTC-6 offset that the scripts themselves fall back to when `zoneinfo`
is unavailable.
-/

/-- Severity tier: the three-level classification used by every report. -/
inductive Tier where
  | RED
  | ORANGE
  | YELLOW
deriving DecidableEq, Repr

/-- Numeric severity of a tier (higher = more severe), used to state
monotonicity of the speed-tier classification. -/
def Tier.sev : Tier → Nat
  | .YELLOW => 0
  | .ORANGE => 1
  | .RED => 2

namespace Py

/-- Python `str.lower()` (ASCII, which is all the tables use). -/
def lowerStr (s : String) : String :=
  String.mk (s.data.map Char.toLower)

/-- Python `str.upper()` (ASCII). -/
def upperStr (s : String) : String :=
  String.mk (s.data.map Char.toUpper)

/-- Python `str.strip()` on a char list: drop leading/trailing whitespace. -/
def stripChars (l : List Char) : List Char :=
  ((l.dropWhile Char.isWhitespace).reverse.dropWhile Char.isWhitespace).reverse

/-- Python `str.strip()`. -/
def stripStr (s : String) : String :=
  String.mk (stripChars s.data)

/-- Replace every occurrence of one character by another
(Python `str.replace` with single-character arguments). -/
def replaceChar (a b : Char) (s : String) : String :=
  String.mk (s.data.map (fun c => if c = a then b else c))

/-- Delete every occurrence of the given characters
(Python chains like `.replace('.', '').replace('-', '')`). -/
def removeChars (cs : List Char) (l : List Char) : List Char :=
  l.filter (fun c => !(cs.contains c))

/-- Substring replacement worker (Python `str.replace(pat, repl)` for
`pat ≠ ""`); the fuel argument, always supplied as the input length,
only bounds the recursion. -/
def replaceSubAux (pat repl : List Char) : ℕ → List Char → List Char
  | _, [] => []
  | 0, l => l
  | fuel + 1, c :: cs =>
    if pat.isPrefixOf (c :: cs) then
      repl ++ replaceSubAux pat repl fuel (List.drop (pat.length - 1) cs)
    else
      c :: replaceSubAux pat repl fuel cs

def replaceSub (pat repl s : String) : String :=
  String.mk (replaceSubAux pat.data repl.data s.data.length s.data)

/-- Python `pat in s` (substring containment) on char lists. -/
def containsSub (pat : List Char) : List Char → Bool
  | [] => pat.isPrefixOf []
  | c :: cs => pat.isPrefixOf (c :: cs) || containsSub pat cs

/-- Python `pat in s` on strings. -/
def containsStr (pat s : String) : Bool :=
  containsSub pat.data s.data

/-- Python `s.startswith(pat)`. -/
def startsWithStr (pat s : String) : Bool :=
  pat.data.isPrefixOf s.data

/-- Python `s.lstrip(chars)`. -/
def lstripSet (cs : List Char) (l : List Char) : List Char :=
  l.dropWhile (fun c => cs.contains c)

/-- Python `s.split(sep, 1)` when `sep` occurs in `s`:
returns the parts before and after the first occurrence. -/
def splitFirst (sep : Char) : List Char → Option (List Char × List Char)
  | [] => none
  | c :: cs =>
    if c = sep then some ([], cs)
    else match splitFirst sep cs with
      | some (a, b) => some (c :: a, b)
      | none => none

/-- Python `str.isdigit()` (ASCII): nonempty and all digits. -/
def isDigitL (l : List Char) : Bool :=
  !l.isEmpty && l.all Char.isDigit

/-- Python `str.isalnum()` (ASCII): nonempty and all letters/digits. -/
def isAlnumL (l : List Char) : Bool :=
  !l.isEmpty && l.all (fun c => c.isAlpha || c.isDigit)

/-- Round to the nearest integer, ties to even (the rounding Python's
`round` uses; floats are modelled as exact rationals). -/
def roundHalfEven (q : ℚ) : ℤ :=
  let f : ℤ := ⌊q⌋
  let r : ℚ := q - f
  if r < 1/2 then f
  else if 1/2 < r then f + 1
  else if f % 2 = 0 then f else f + 1

/-- Python `round(q, n)`: round to `n` decimal places, ties to even. -/
def roundDec (n : ℕ) (q : ℚ) : ℚ :=
  (roundHalfEven (q * (10 : ℚ) ^ n) : ℚ) / (10 : ℚ) ^ n

/-- Python `int(q)`: truncation toward zero. -/
def truncInt (q : ℚ) : ℤ :=
  if 0 ≤ q then ⌊q⌋ else -⌊-q⌋

end Py

/-- `KMH_TO_MPH = 0.621371` (all three scripts). -/
def KMH_TO_MPH : ℚ := 621371 / 1000000

namespace DailyCamera

/-- `EVENT_TYPE_NORMALIZE` from `daily_casing_camera_report.py`:
raw type string → canonical name (association list in source order). -/
def EVENT_TYPE_NORMALIZE : List (String × String) := [
  ("distraction", "distraction"),
  ("distracted_driving", "distraction"),
  ("driver_distraction", "distraction"),
  ("cell_phone", "cell_phone"),
  ("cell_phone_usage", "cell_phone"),
  ("phone_use", "cell_phone"),
  ("cellphone", "cell_phone"),
  ("phone_usage", "cell_phone"),
  ("drowsiness", "drowsiness"),
  ("drowsy", "drowsiness"),
  ("drowsy_driving", "drowsiness"),
  ("fatigue", "drowsiness"),
  ("driver_drowsiness", "drowsiness"),
  ("close_following", "close_following"),
  ("following_distance", "close_following"),
  ("tailgating", "close_following"),
  ("forward_collision_warning", "forward_collision_warning"),
  ("forward_collision", "forward_collision_warning"),
  ("fcw", "forward_collision_warning"),
  ("collision", "collision"),
  ("crash", "collision"),
  ("near_collision", "near_collision"),
  ("near_crash", "near_collision"),
  ("stop_sign_violation", "stop_sign_violation"),
  ("stop_sign", "stop_sign_violation"),
  ("ran_stop_sign", "stop_sign_violation"),
  ("unsafe_lane_change", "unsafe_lane_change"),
  ("lane_change", "unsafe_lane_change"),
  ("aggregated_lane_swerving", "lane_swerving"),
  ("lane_swerving", "lane_swerving"),
  ("lane_swerve", "lane_swerving"),
  ("hard_brake", "hard_brake"),
  ("hard_braking", "hard_brake"),
  ("harsh_brake", "hard_brake"),
  ("harsh_braking", "hard_brake"),
  ("seat_belt_violation", "seat_belt_violation"),
  ("seatbelt", "seat_belt_violation"),
  ("seatbelt_violation", "seat_belt_violation"),
  ("no_seatbelt", "seat_belt_violation"),
  ("seat_belt", "seat_belt_violation"),
  ("camera_obstruction", "camera_obstruction"),
  ("obstruction", "camera_obstruction"),
  ("camera_blocked", "camera_obstruction"),
  ("smoking", "smoking"),
  ("vaping", "smoking"),
  ("hard_accel", "hard_accel"),
  ("hard_acceleration", "hard_accel"),
  ("harsh_acceleration", "hard_accel"),
  ("rapid_acceleration", "hard_accel"),
  ("hard_corner", "hard_corner"),
  ("hard_cornering", "hard_corner"),
  ("hard_turn", "hard_corner"),
  ("harsh_cornering", "hard_corner"),
  ("harsh_turn", "hard_corner"),
  ("speed_violation", "speed_violation"),
  ("speeding", "speed_violation")]

def RED_TYPES : List String := [
  "distraction", "cell_phone", "drowsiness", "close_following",
  "forward_collision_warning", "collision", "near_collision",
  "stop_sign_violation", "unsafe_lane_change", "lane_swerving"]

def ORANGE_TYPES : List String := [
  "hard_brake", "seat_belt_violation", "camera_obstruction", "smoking"]

def YELLOW_TYPES : List String := [
  "hard_accel", "hard_corner", "speed_violation"]

/-- `EVENT_SEVERITY_ORDER` (lower = more severe). -/
def EVENT_SEVERITY_ORDER : List (String × Nat) := [
  ("collision", 1), ("near_collision", 2), ("forward_collision_warning", 3),
  ("distraction", 4), ("cell_phone", 5), ("drowsiness", 6),
  ("stop_sign_violation", 7), ("unsafe_lane_change", 8), ("lane_swerving", 8),
  ("close_following", 9), ("hard_brake", 10), ("seat_belt_violation", 11),
  ("camera_obstruction", 12), ("smoking", 13), ("hard_accel", 14),
  ("hard_corner", 15), ("speed_violation", 16)]

/-- `_normalize_event_type` (`daily_casing_camera_report.py:244`):
lower-case, strip, spaces/hyphens → underscores, then synonym lookup;
empty input maps to the sentinel `"unknown"`; unmapped keys are returned
unchanged. -/
def normalize_event_type (raw_type : String) : String :=
  if raw_type = "" then "unknown"
  else
    let key := Py.replaceChar '-' '_' (Py.replaceChar ' ' '_'
      (Py.stripStr (Py.lowerStr raw_type)))
    (EVENT_TYPE_NORMALIZE.lookup key).getD key

/-- `_classify_tier` (`daily_casing_camera_report.py:252`): fixed set
membership, unknown types default to ORANGE. -/
def classify_tier (event_type : String) : Tier :=
  if RED_TYPES.contains event_type then .RED
  else if ORANGE_TYPES.contains event_type then .ORANGE
  else if YELLOW_TYPES.contains event_type then .YELLOW
  else .ORANGE

end DailyCamera

namespace Weekly

/-- `EVENT_TYPE_NORMALIZE` from `weekly_casing_briefing.py` (adds the two
camera-obstruction raw synonyms and `unsafe_parking`). -/
def EVENT_TYPE_NORMALIZE : List (String × String) :=
  [("distraction", "distraction"), ("distracted_driving", "distraction"),
   ("driver_distraction", "distraction"),
   ("cell_phone", "cell_phone"), ("cell_phone_usage", "cell_phone"),
   ("phone_use", "cell_phone"), ("cellphone", "cell_phone"),
   ("phone_usage", "cell_phone"),
   ("drowsiness", "drowsiness"), ("drowsy", "drowsiness"),
   ("drowsy_driving", "drowsiness"), ("fatigue", "drowsiness"),
   ("driver_drowsiness", "drowsiness"),
   ("close_following", "close_following"),
   ("following_distance", "close_following"), ("tailgating", "close_following"),
   ("forward_collision_warning", "forward_collision_warning"),
   ("forward_collision", "forward_collision_warning"),
   ("fcw", "forward_collision_warning"),
   ("collision", "collision"), ("crash", "collision"),
   ("near_collision", "near_collision"), ("near_crash", "near_collision"),
   ("stop_sign_violation", "stop_sign_violation"),
   ("stop_sign", "stop_sign_violation"), ("ran_stop_sign", "stop_sign_violation"),
   ("unsafe_lane_change", "unsafe_lane_change"),
   ("lane_change", "unsafe_lane_change"),
   ("aggregated_lane_swerving", "lane_swerving"),
   ("lane_swerving", "lane_swerving"), ("lane_swerve", "lane_swerving"),
   ("hard_brake", "hard_brake"), ("hard_braking", "hard_brake"),
   ("harsh_brake", "hard_brake"), ("harsh_braking", "hard_brake"),
   ("seat_belt_violation", "seat_belt_violation"),
   ("seatbelt", "seat_belt_violation"), ("seatbelt_violation", "seat_belt_violation"),
   ("no_seatbelt", "seat_belt_violation"), ("seat_belt", "seat_belt_violation"),
   ("camera_obstruction", "camera_obstruction"),
   ("obstruction", "camera_obstruction"), ("camera_blocked", "camera_obstruction"),
   ("driver_facing_cam_obstruction", "camera_obstruction"),
   ("road_facing_cam_obstruction", "camera_obstruction"),
   ("smoking", "smoking"), ("vaping", "smoking"),
   ("unsafe_parking", "unsafe_parking"),
   ("hard_accel", "hard_accel"), ("hard_acceleration", "hard_accel"),
   ("harsh_acceleration", "hard_accel"), ("rapid_acceleration", "hard_accel"),
   ("hard_corner", "hard_corner"), ("hard_cornering", "hard_corner"),
   ("hard_turn", "hard_corner"), ("harsh_cornering", "hard_corner"),
   ("harsh_turn", "hard_corner"),
   ("speed_violation", "speed_violation"), ("speeding", "speed_violation")]

def RED_TYPES : List String := [
  "distraction", "cell_phone", "drowsiness", "close_following",
  "forward_collision_warning", "collision", "near_collision",
  "stop_sign_violation", "unsafe_lane_change", "lane_swerving"]

def ORANGE_TYPES : List String := [
  "hard_brake", "seat_belt_violation", "camera_obstruction", "smoking",
  "unsafe_parking"]

def YELLOW_TYPES : List String := [
  "hard_accel", "hard_corner", "speed_violation"]

/-- `_normalize_event_type` (`weekly_casing_briefing.py:232`). -/
def normalize_event_type (raw_type : String) : String :=
  if raw_type = "" then "unknown"
  else
    let key := Py.replaceChar '-' '_' (Py.replaceChar ' ' '_'
      (Py.stripStr (Py.lowerStr raw_type)))
    (EVENT_TYPE_NORMALIZE.lookup key).getD key

/-- `_classify_tier` (`weekly_casing_briefing.py:239`). -/
def classify_tier (event_type : String) : Tier :=
  if RED_TYPES.contains event_type then .RED
  else if ORANGE_TYPES.contains event_type then .ORANGE
  else if YELLOW_TYPES.contains event_type then .YELLOW
  else .ORANGE

end Weekly

namespace DailySpeeding

/-- Tier block of `enrich_event` (`daily_speeding_report.py:398-406`):
RED if 20+ mph over or 90+ mph absolute, ORANGE at 15+, YELLOW otherwise
(the explicit `overspeed >= 10` branch and the final `else` both yield
YELLOW, as in the source). -/
def speed_tier (overspeed max_speed : ℚ) : Tier :=
  if overspeed ≥ 20 ∨ max_speed ≥ 90 then .RED
  else if overspeed ≥ 15 then .ORANGE
  else if overspeed ≥ 10 then .YELLOW
  else .YELLOW

end DailySpeeding

namespace Weekly

/-- Tier block of `_enrich_speeding_event` (`weekly_casing_briefing.py:485-490`). -/
def speed_tier (overspeed max_speed : ℚ) : Tier :=
  if overspeed ≥ 20 ∨ max_speed ≥ 90 then .RED
  else if overspeed ≥ 15 then .ORANGE
  else .YELLOW

/-- Day number (days since the Unix epoch, Central time) of the calendar
date containing an instant; the scripts' Central timezone is modelled with
their own fixed UTC-6 fallback (`weekly_casing_briefing.py:53`).  Instants
are rational epoch seconds. -/
def todayDayOf (now : ℚ) : ℤ := ⌊(now - 21600) / 86400⌋

/-- Python `date.weekday()` (Monday = 0) for an epoch day number;
day 0 (1970-01-01) was a Thursday. -/
def weekdayOf (day : ℤ) : ℤ := (day + 3) % 7

/-- `get_week_range` (`weekly_casing_briefing.py:311-331`): previous
Mon-Sun window relative to `now`.  Returns
(`start_ct` epoch seconds, `end_ct` epoch seconds, `last_monday` day,
`last_sunday` day); Central civil midnight of day `d` is epoch
`d * 86400 + 21600` under the fixed UTC-6 model. -/
def get_week_range (now : ℚ) : ℚ × ℚ × ℤ × ℤ :=
  let today := todayDayOf now
  let days_since_monday := weekdayOf today
  let last_monday :=
    if days_since_monday = 0 then today - 7 else today - (days_since_monday + 7)
  let last_sunday := last_monday + 6
  (((last_monday * 86400 + 21600 : ℤ) : ℚ),
   ((last_sunday * 86400 + (23 * 3600 + 59 * 60 + 59) + 21600 : ℤ) : ℚ),
   last_monday, last_sunday)

end Weekly

/-- Speed-based tier contract exactly as the spec words it (claim C3):
RED if `overLimitMph >= 20 OR absoluteSpeedMph >= 90`; else ORANGE if
`overLimitMph >= 15`; else YELLOW. -/
def speedTierSpec (overLimitMph absoluteSpeedMph : ℚ) : Tier :=
  if overLimitMph ≥ 20 ∨ absoluteSpeedMph ≥ 90 then .RED
  else if overLimitMph ≥ 15 then .ORANGE
  else .YELLOW

lemma Tier.sev_le_two (t : Tier) : t.sev ≤ 2 := by
  cases t <;> simp [Tier.sev]

lemma speedTierSpec_sev_mono (o₁ o₂ m : ℚ) (h : o₁ ≤ o₂) :
    (speedTierSpec o₁ m).sev ≤ (speedTierSpec o₂ m).sev := by
  unfold speedTierSpec
  by_cases h2 : o₂ ≥ 20 ∨ m ≥ 90
  · rw [if_pos h2]
    have hle := Tier.sev_le_two
      (if o₁ ≥ 20 ∨ m ≥ 90 then Tier.RED else if o₁ ≥ 15 then Tier.ORANGE else Tier.YELLOW)
    simpa [Tier.sev] using hle
  · have h1 : ¬(o₁ ≥ 20 ∨ m ≥ 90) := by
      push_neg at h2 ⊢
      exact ⟨lt_of_le_of_lt h h2.1, h2.2⟩
    rw [if_neg h1, if_neg h2]
    by_cases h15 : o₁ ≥ 15
    · rw [if_pos h15, if_pos (le_trans h15 h)]
    · rw [if_neg h15]
      by_cases k : o₂ ≥ 15 <;> simp [k, Tier.sev]

lemma daily_speed_tier_eq_spec (o m : ℚ) :
    DailySpeeding.speed_tier o m = speedTierSpec o m := by
  simp only [DailySpeeding.speed_tier, speedTierSpec]
  split_ifs <;> rfl

lemma weekly_speed_tier_eq_spec (o m : ℚ) :
    Weekly.speed_tier o m = speedTierSpec o m := by
  simp only [Weekly.speed_tier, speedTierSpec]

/-- C3: both speeding-event tier classifiers implement the spec's
20/15-with-90-mph-override contract, the absolute-speed RED condition
always wins, and for fixed absolute speed the severity is monotonically
non-decreasing in the overspeed. -/
theorem C3_speed_tier_contract :
    (∀ o m : ℚ, DailySpeeding.speed_tier o m = speedTierSpec o m ∧
      Weekly.speed_tier o m = speedTierSpec o m) ∧
    (∀ o m : ℚ, 90 ≤ m →
      DailySpeeding.speed_tier o m = .RED ∧ Weekly.speed_tier o m = .RED) ∧
    (∀ o₁ o₂ m : ℚ, o₁ ≤ o₂ →
      (DailySpeeding.speed_tier o₁ m).sev ≤ (DailySpeeding.speed_tier o₂ m).sev ∧
      (Weekly.speed_tier o₁ m).sev ≤ (Weekly.speed_tier o₂ m).sev) := by
  refine ⟨?_, ?_, ?_⟩
  · intro o m
    exact ⟨daily_speed_tier_eq_spec o m, weekly_speed_tier_eq_spec o m⟩
  · intro o m h
    rw [daily_speed_tier_eq_spec, weekly_speed_tier_eq_spec]
    unfold speedTierSpec
    rw [if_pos (Or.inr h)]
    exact ⟨rfl, rfl⟩
  · intro o₁ o₂ m h
    rw [daily_speed_tier_eq_spec, daily_speed_tier_eq_spec,
      weekly_speed_tier_eq_spec, weekly_speed_tier_eq_spec]
    exact ⟨speedTierSpec_sev_mono o₁ o₂ m h, speedTierSpec_sev_mono o₁ o₂ m h⟩

/-- C3 witness: the contract instantiated at a concrete event — 3 mph
over the limit at 95 mph absolute is RED, and severity does not decrease
when the overspeed rises from 3 to 16 at 50 mph absolute. -/
theorem C3_speed_tier_contract_witness :
    DailySpeeding.speed_tier 3 95 = .RED ∧
    (DailySpeeding.speed_tier 3 50).sev ≤ (DailySpeeding.speed_tier 16 50).sev := by
  refine ⟨(C3_speed_tier_contract.2.1 3 95 (by norm_num)).1, ?_⟩
  exact (C3_speed_tier_contract.2.2 3 16 50 (by norm_num)).1

/-- C7: the event-type tier classifiers (daily camera report and weekly
briefing) are total — every input string gets exactly one of RED, ORANGE,
YELLOW — and every type outside the RED and YELLOW sets is assigned ORANGE. -/
theorem C7_tier_totality (s : String) :
    (DailyCamera.classify_tier s = .RED ∨ DailyCamera.classify_tier s = .ORANGE ∨
      DailyCamera.classify_tier s = .YELLOW) ∧
    (Weekly.classify_tier s = .RED ∨ Weekly.classify_tier s = .ORANGE ∨
      Weekly.classify_tier s = .YELLOW) ∧
    (DailyCamera.RED_TYPES.contains s = false →
      DailyCamera.YELLOW_TYPES.contains s = false →
      DailyCamera.classify_tier s = .ORANGE) ∧
    (Weekly.RED_TYPES.contains s = false →
      Weekly.YELLOW_TYPES.contains s = false →
      Weekly.classify_tier s = .ORANGE) := by
  refine ⟨?_, ?_, ?_, ?_⟩
  · unfold DailyCamera.classify_tier
    split_ifs <;> simp
  · unfold Weekly.classify_tier
    split_ifs <;> simp
  · intro h1 h2
    unfold DailyCamera.classify_tier
    rw [h1, h2]
    split_ifs <;> simp_all
  · intro h1 h2
    unfold Weekly.classify_tier
    rw [h1, h2]
    split_ifs <;> simp_all

/-- C7 witness: the classifiers at the sentinel `"unknown"`, which is in
neither the RED nor the YELLOW set and therefore ORANGE. -/
theorem C7_tier_totality_witness :
    DailyCamera.classify_tier "unknown" = .ORANGE ∧
    Weekly.classify_tier "unknown" = .ORANGE :=
  ⟨(C7_tier_totality "unknown").2.2.1 (by decide) (by decide),
   (C7_tier_totality "unknown").2.2.2 (by decide) (by decide)⟩

/-- C10: the canonicalizer is idempotent on every key of the synonym
table — canonicalizing a canonical output again leaves it unchanged
(both the daily camera report's table and the weekly briefing's table). -/
theorem C10_canonicalize_idempotent :
    (∀ p ∈ DailyCamera.EVENT_TYPE_NORMALIZE,
      DailyCamera.normalize_event_type (DailyCamera.normalize_event_type p.1)
        = DailyCamera.normalize_event_type p.1) ∧
    (∀ p ∈ Weekly.EVENT_TYPE_NORMALIZE,
      Weekly.normalize_event_type (Weekly.normalize_event_type p.1)
        = Weekly.normalize_event_type p.1) := by
  constructor <;> decide

/-- C10 witness: idempotence at the synonym `"harsh_braking"`. -/
theorem C10_canonicalize_idempotent_witness :
    DailyCamera.normalize_event_type (DailyCamera.normalize_event_type "harsh_braking")
      = DailyCamera.normalize_event_type "harsh_braking" :=
  C10_canonicalize_idempotent.1 ("harsh_braking", "hard_brake") (by decide)

/-- C8: `get_week_range` always returns the Monday-through-Sunday window of
the week strictly before the week containing `now`: the returned Monday is
the week-start of `now`'s week minus 7 days, the window spans exactly
`7*86400 - 1` seconds from Central midnight of that Monday, its end lies
strictly before `now`, the window lies at least one full week back, and on
a Monday the returned Sunday is the previous calendar day. -/
theorem C8_week_range (now : ℚ) :
    (Weekly.get_week_range now).2.2.1
      = Weekly.todayDayOf now - Weekly.weekdayOf (Weekly.todayDayOf now) - 7 ∧
    (Weekly.get_week_range now).2.2.2 = (Weekly.get_week_range now).2.2.1 + 6 ∧
    Weekly.weekdayOf (Weekly.get_week_range now).2.2.1 = 0 ∧
    (Weekly.get_week_range now).1
      = (((Weekly.get_week_range now).2.2.1 * 86400 + 21600 : ℤ) : ℚ) ∧
    (Weekly.get_week_range now).2.1 = (Weekly.get_week_range now).1 + (7 * 86400 - 1) ∧
    (Weekly.get_week_range now).2.1 < now ∧
    (Weekly.get_week_range now).2.2.1 ≤ Weekly.todayDayOf now - 7 ∧
    (Weekly.weekdayOf (Weekly.todayDayOf now) = 0 →
      (Weekly.get_week_range now).2.2.2 = Weekly.todayDayOf now - 1) := by
  have hnow : ((Weekly.todayDayOf now : ℤ) : ℚ) * 86400 ≤ now - 21600 := by
    have h := Int.floor_le ((now - 21600) / 86400)
    exact (le_div_iff₀ (by norm_num : (0:ℚ) < 86400)).mp h
  simp only [Weekly.get_week_range, Weekly.weekdayOf]
  generalize hta : Weekly.todayDayOf now = t at hnow ⊢
  have hw0 : 0 ≤ (t + 3) % 7 := Int.emod_nonneg _ (by norm_num)
  have hw7 : (t + 3) % 7 < 7 := Int.emod_lt_of_pos _ (by norm_num)
  by_cases h0 : (t + 3) % 7 = 0
  · rw [if_pos h0]
    refine ⟨by omega, by norm_num, by omega, by norm_num, by push_cast; ring_nf, ?_,
      by omega, fun _ => by omega⟩
    push_cast
    linarith
  · rw [if_neg h0]
    have hw1 : 1 ≤ (t + 3) % 7 := by omega
    have hw1q : (1 : ℚ) ≤ (((t + 3) % 7 : ℤ) : ℚ) := by exact_mod_cast hw1
    refine ⟨by omega, by norm_num, by omega, by norm_num, by push_cast; ring_nf, ?_,
      by omega, fun hc => absurd hc h0⟩
    push_cast
    linarith

namespace Py

/-- Python's stable sort: insert an incoming element after every element
`y` already in place for which `le y x` holds (so equal elements keep
their original relative order). -/
def insertSorted (le : α → α → Bool) (x : α) : List α → List α
  | [] => [x]
  | y :: ys => if le y x then y :: insertSorted le x ys else x :: y :: ys

/-- Python `sorted(l, ...)` as a stable insertion sort; `le a b` means
"`a` may stay before `b`" (for `sorted(key=k)` it is `k a ≤ k b`, for
`reverse=True` it is `k b ≤ k a`). -/
def stableSort (le : α → α → Bool) (l : List α) : List α :=
  l.foldl (fun acc x => insertSorted le x acc) []

theorem mem_insertSorted (le : α → α → Bool) (x : α) (l : List α) (a : α) :
    a ∈ insertSorted le x l ↔ a = x ∨ a ∈ l := by
  induction l with
  | nil => simp [insertSorted]
  | cons y ys ih =>
    simp only [insertSorted]
    split_ifs
    · simp only [List.mem_cons, ih]
      tauto
    · simp only [List.mem_cons]

theorem insertSorted_perm (le : α → α → Bool) (x : α) (l : List α) :
    (insertSorted le x l).Perm (x :: l) := by
  induction l with
  | nil => simp [insertSorted]
  | cons y ys ih =>
    simp only [insertSorted]
    split_ifs
    · exact (ih.cons y).trans (List.Perm.swap x y ys)
    · exact List.Perm.refl _

theorem stableSort_perm (le : α → α → Bool) (l : List α) :
    (stableSort le l).Perm l := by
  suffices h : ∀ (l acc : List α),
      (l.foldl (fun acc x => insertSorted le x acc) acc).Perm (acc ++ l) by
    simpa using h l []
  intro l
  induction l with
  | nil => simp
  | cons x xs ih =>
    intro acc
    simp only [List.foldl_cons]
    refine (ih (insertSorted le x acc)).trans ?_
    refine (List.Perm.append_right xs ((insertSorted_perm le x acc))).trans ?_
    simpa using (@List.perm_middle _ x acc xs).symm

theorem mem_stableSort (le : α → α → Bool) (l : List α) (a : α) :
    a ∈ stableSort le l ↔ a ∈ l :=
  (stableSort_perm le l).mem_iff

theorem length_stableSort (le : α → α → Bool) (l : List α) :
    (stableSort le l).length = l.length :=
  (stableSort_perm le l).length_eq

theorem pairwise_insertSorted (le : α → α → Bool)
    (htot : ∀ a b, le a b = true ∨ le b a = true)
    (htrans : ∀ a b c, le a b = true → le b c = true → le a c = true)
    (x : α) (l : List α) (h : l.Pairwise (fun a b => le a b = true)) :
    (insertSorted le x l).Pairwise (fun a b => le a b = true) := by
  induction l with
  | nil => simp [insertSorted]
  | cons y ys ih =>
    rcases List.pairwise_cons.mp h with ⟨hy, hys⟩
    simp only [insertSorted]
    split_ifs with hle
    · refine List.pairwise_cons.mpr ⟨?_, ih hys⟩
      intro z hz
      rcases (mem_insertSorted le x ys z).mp hz with rfl | hz
      · exact hle
      · exact hy z hz
    · refine List.pairwise_cons.mpr ⟨?_, h⟩
      intro z hz
      have hxy : le x y = true := (htot x y).resolve_right (by simpa using hle)
      rcases List.mem_cons.mp hz with rfl | hz
      · exact hxy
      · exact htrans x y z hxy (hy z hz)

theorem pairwise_stableSort (le : α → α → Bool)
    (htot : ∀ a b, le a b = true ∨ le b a = true)
    (htrans : ∀ a b c, le a b = true → le b c = true → le a c = true)
    (l : List α) :
    (stableSort le l).Pairwise (fun a b => le a b = true) := by
  suffices h : ∀ (l acc : List α), acc.Pairwise (fun a b => le a b = true) →
      (l.foldl (fun acc x => insertSorted le x acc) acc).Pairwise
        (fun a b => le a b = true) by
    exact h l [] (by simp)
  intro l
  induction l with
  | nil => intro acc h; simpa using h
  | cons x xs ih =>
    intro acc hacc
    exact ih _ (pairwise_insertSorted le htot htrans x acc hacc)

/-- Stability of `stableSort`, phrased through a strictly increasing
secondary index: if the input is strictly increasing in `sec`, every pair
in the output is ordered by `le`, and tied pairs (where `le` holds both
ways) keep their original `sec` order. -/
theorem stableSort_stable (le : α → α → Bool) (sec : α → ℕ)
    (htot : ∀ a b, le a b = true ∨ le b a = true)
    (htrans : ∀ a b c, le a b = true → le b c = true → le a c = true)
    (l : List α) (hsec : l.Pairwise (fun a b => sec a < sec b)) :
    (stableSort le l).Pairwise
      (fun a b => le a b = true ∧ (le b a = true → sec a < sec b)) := by
  suffices h : ∀ (l acc : List α),
      acc.Pairwise (fun a b => le a b = true ∧ (le b a = true → sec a < sec b)) →
      (∀ y ∈ acc, ∀ x ∈ l, sec y < sec x) →
      l.Pairwise (fun a b => sec a < sec b) →
      (l.foldl (fun acc x => insertSorted le x acc) acc).Pairwise
        (fun a b => le a b = true ∧ (le b a = true → sec a < sec b)) by
    exact h l [] (by simp) (by simp) hsec
  intro l
  induction l with
  | nil => intro acc h _ _; simpa using h
  | cons x xs ih =>
    intro acc hacc hfresh hl
    rcases List.pairwise_cons.mp hl with ⟨hx, hxs⟩
    simp only [List.foldl_cons]
    refine ih (insertSorted le x acc) ?_ ?_ hxs
    · -- inserting x (whose sec exceeds everything in acc) keeps the invariant
      have hxfresh : ∀ y ∈ acc, sec y < sec x := fun y hy =>
        hfresh y hy x (List.mem_cons_self x xs)
      clear ih hfresh hl hxs
      induction acc with
      | nil => simp [insertSorted]
      | cons y ys ihy =>
        rcases List.pairwise_cons.mp hacc with ⟨hy, hys⟩
        simp only [insertSorted]
        split_ifs with hle
        · refine List.pairwise_cons.mpr ⟨?_, ihy hys ?_⟩
          · intro z hz
            rcases (mem_insertSorted le x ys z).mp hz with rfl | hz
            · exact ⟨hle, fun _ => hxfresh y (List.mem_cons_self y ys)⟩
            · exact hy z hz
          · intro z hz
            exact hxfresh z (List.mem_cons_of_mem y hz)
        · refine List.pairwise_cons.mpr ⟨?_, hacc⟩
          have hxy : le x y = true := (htot x y).resolve_right (by simpa using hle)
          intro z hz
          rcases List.mem_cons.mp hz with rfl | hz
          · exact ⟨hxy, fun hyx => absurd hyx (by simpa using hle)⟩
          · refine ⟨htrans x y z hxy (hy z hz).1, fun hzx => ?_⟩
            exact absurd (htrans z x y hzx hxy)
              (fun hzy => by
                have := (hy z hz).1
                exact absurd (htrans y z x this hzx) (by simpa using hle))
    · intro y hy z hz
      rcases (mem_insertSorted le x acc y).mp hy with rfl | hy
      · exact hx z hz
      · exact hfresh y hy z (List.mem_cons_of_mem x hz)

/-- The key order of a Python dict built by scanning a sequence:
each distinct value once, in order of first occurrence. -/
def firstOccur : List String → List String
  | [] => []
  | x :: xs => x :: (firstOccur xs).filter (fun y => y ≠ x)

theorem mem_firstOccur (xs : List String) (a : String) :
    a ∈ firstOccur xs ↔ a ∈ xs := by
  induction xs with
  | nil => simp [firstOccur]
  | cons x xs ih =>
    simp only [firstOccur, List.mem_cons, List.mem_filter]
    by_cases hax : a = x
    · simp [hax]
    · simp [hax, ih]

theorem nodup_firstOccur (xs : List String) : (firstOccur xs).Nodup := by
  induction xs with
  | nil => simp [firstOccur]
  | cons x xs ih =>
    simp only [firstOccur]
    refine List.nodup_cons.mpr ⟨?_, ih.filter _⟩
    intro hx
    exact absurd (List.of_mem_filter hx) (by simp)

end Py

namespace Py

/-- A Python `Counter` built from a sequence: keys in first-occurrence
order, each paired with its multiplicity. -/
def counterList (xs : List String) : List (String × ℕ) :=
  (firstOccur xs).map (fun k => (k, xs.count k))

/-- `Counter.most_common()`: entries sorted by count descending, stable
(insertion order breaks ties). -/
def most_common (l : List (String × ℕ)) : List (String × ℕ) :=
  stableSort (fun a b => decide (b.2 ≤ a.2)) l

/-- `repr` of a one-decimal Python float (every speed in the reports has
been rounded to one decimal before display). -/
def floatRepr1 (q : ℚ) : String :=
  let n : ℤ := ⌊q * 10⌋
  let sign := if n < 0 then "-" else ""
  let m := n.natAbs
  sign ++ toString (m / 10) ++ "." ++ toString (m % 10)

/-- `_plural` (`weekly_casing_briefing.py:297`) with the default plural
form. -/
def plural (count : ℕ) (singular : String) : String :=
  if count = 1 then "1 " ++ singular
  else toString count ++ " " ++ singular ++ "s"

theorem mem_counterList_fst (xs : List String) (name : String) :
    name ∈ (counterList xs).map Prod.fst ↔ name ∈ xs := by
  simp only [counterList, List.map_map]
  have : (Prod.fst ∘ fun k => (k, xs.count k)) = id := rfl
  rw [this, List.map_id]
  exact mem_firstOccur xs name

theorem counterList_count (xs : List String) (name : String) (c : ℕ)
    (h : (name, c) ∈ counterList xs) : c = xs.count name := by
  simp only [counterList, List.mem_map] at h
  obtain ⟨k, _, hk⟩ := h
  cases hk
  rfl

/-- Counting a value in the projection of a filtered list equals the
length of the matching filter (for a name other than the sentinel). -/
theorem count_map_filter_ne {α : Type} (f : α → String) (l : List α)
    (name : String) (h : name ≠ "Unknown") :
    ((l.filter (fun e => f e ≠ "Unknown")).map f).count name
      = (l.filter (fun e => f e = name)).length := by
  induction l with
  | nil => simp
  | cons e es ih =>
    simp only [ne_eq, decide_not] at ih ⊢
    by_cases he : f e = name
    · have hne : ¬ f e = "Unknown" := by rw [he]; exact h
      simp [List.filter_cons, hne, he, h, Ne.symm h, List.count_cons, ih]
    · by_cases hu : f e = "Unknown"
      · simp [List.filter_cons, hu, he, h, Ne.symm h, ih]
      · simp [List.filter_cons, hu, he, h, Ne.symm h, List.count_cons, ih]

/-- Inserting an element that compares after everything already placed
appends it at the end. -/
theorem insertSorted_append (le : α → α → Bool) (x : α) (acc : List α)
    (h : ∀ a ∈ acc, le a x = true) : insertSorted le x acc = acc ++ [x] := by
  induction acc with
  | nil => simp [insertSorted]
  | cons y ys ih =>
    simp only [insertSorted]
    rw [if_pos (h y (List.mem_cons_self y ys)),
      ih (fun a ha => h a (List.mem_cons_of_mem y ha))]
    simp

/-- If every pair of the list compares `true`, the stable sort is the
identity (the all-ties case). -/
theorem stableSort_all_eq (le : α → α → Bool) (l : List α)
    (h : ∀ a ∈ l, ∀ b ∈ l, le a b = true) :
    stableSort le l = l := by
  suffices haux : ∀ (l acc : List α), (∀ a ∈ acc, ∀ b ∈ l, le a b = true) →
      (∀ a ∈ l, ∀ b ∈ l, le a b = true) →
      l.foldl (fun acc x => insertSorted le x acc) acc = acc ++ l by
    exact haux l [] (by simp) h
  intro l
  induction l with
  | nil => intro acc _ _; simp
  | cons x xs ih =>
    intro acc hacc hl
    simp only [List.foldl_cons]
    have hins : insertSorted le x acc = acc ++ [x] :=
      insertSorted_append le x acc (fun a ha => hacc a ha x (List.mem_cons_self x xs))
    have h1 : ∀ a ∈ acc ++ [x], ∀ b ∈ xs, le a b = true := by
      intro a ha b hb
      rcases List.mem_append.mp ha with ha | ha
      · exact hacc a ha b (List.mem_cons_of_mem x hb)
      · have hax : a = x := by simpa using ha
        rw [hax]
        exact hl x (List.mem_cons_self x xs) b (List.mem_cons_of_mem x hb)
    have h2 : ∀ a ∈ xs, ∀ b ∈ xs, le a b = true := fun a ha b hb =>
      hl a (List.mem_cons_of_mem x ha) b (List.mem_cons_of_mem x hb)
    rw [hins, ih (acc ++ [x]) h1 h2]
    simp

end Py

/-- A flattened KPA CSV row: ordered field-name/value pairs. -/
abbrev KpaRow := List (String × String)

namespace DailyCamera

/-- The enriched camera-event record produced by `enrich_camera_event`
(`daily_casing_camera_report.py:721-734`). -/
structure CameraEvent where
  driver : String
  vehicle : String
  event_type : String
  raw_type : String
  display_name : String
  tier : Tier
  speed : ℚ
  duration : String
  time : String
  video_url : String
  location : String
  yard : String
deriving DecidableEq, Repr

/-- `{"RED": 0, "ORANGE": 1, "YELLOW": 2}` used by `get_repeat_offenders`
and `_event_sort_key` (total on the `Tier` type, so the dict default 1
is never needed for the tier itself). -/
def tierOrderVal : Tier → ℕ
  | .RED => 0
  | .ORANGE => 1
  | .YELLOW => 2

/-- `min(... for e in events, default=1)` over the tier-order values. -/
def worst_tier (evts : List CameraEvent) : ℕ :=
  ((evts.map (fun e => tierOrderVal e.tier)).min?).getD 1

/-- Per-driver value stored by `get_repeat_offenders`. -/
structure OffenderInfo where
  count : ℕ
  types : String
  events : List CameraEvent
deriving DecidableEq, Repr

/-- The `driver_events` dict of `get_repeat_offenders`
(`daily_casing_camera_report.py:746-750`): keys are the non-`"Unknown"`
drivers in first-occurrence order, each mapped to that driver's events in
order. -/
def driver_events (events : List CameraEvent) : List (String × List CameraEvent) :=
  (Py.firstOccur ((events.filter (fun e => e.driver ≠ "Unknown")).map (·.driver))).map
    (fun n => (n, events.filter (fun e => e.driver = n)))

/-- Sort key of `get_repeat_offenders`: `(-count, worst_tier)` ascending,
expressed as the "may stay before" comparison of a stable sort. -/
def offender_le (a b : String × OffenderInfo) : Bool :=
  decide (b.2.count < a.2.count ∨
    (a.2.count = b.2.count ∧ worst_tier a.2.events ≤ worst_tier b.2.events))

/-- `get_repeat_offenders` (`daily_casing_camera_report.py:741-767`):
drivers with 2+ camera events (excluding `"Unknown"`), sorted by count
descending then worst tier. -/
def get_repeat_offenders (events : List CameraEvent) : List (String × OffenderInfo) :=
  let repeats := ((driver_events events).filter (fun p => 2 ≤ p.2.length)).map
    (fun p => (p.1,
      ({ count := p.2.length,
         types := String.intercalate ", "
           ((Py.most_common (Py.counterList (p.2.map (·.display_name)))).map
             (fun q => q.1 ++ " x" ++ toString q.2)),
         events := p.2 } : OffenderInfo)))
  Py.stableSort offender_le repeats

end DailyCamera

namespace DailySpeeding

/-- The enriched speeding-event record produced by `enrich_event`
(`daily_speeding_report.py:464-478`). -/
structure SpeedingEvent where
  driver : String
  vehicle : String
  speed : ℚ
  posted_speed : ℚ
  overspeed : ℚ
  duration : String
  severity : String
  time : String
  location : String
  maps_link : String
  tier : Tier
  division : String
  yard : String
deriving DecidableEq, Repr

/-- `max(e["overspeed"] for e in events if e["driver"] == name)` — the
worst single overspeed of a driver (`daily_speeding_report.py:498-499`);
the `0` default is unreachable in use because every sorted name has
at least 3 events. -/
def worst_over (events : List SpeedingEvent) (name : String) : ℚ :=
  (((events.filter (fun e => e.driver = name)).map (·.overspeed)).max?).getD 0

/-- The `repeats_3plus` dict: per-driver counts (excluding `"Unknown"`)
restricted to counts of 3 or more (`daily_speeding_report.py:490-492`). -/
def repeats3 (events : List SpeedingEvent) : List (String × ℕ) :=
  (Py.counterList ((events.filter (fun e => e.driver ≠ "Unknown")).map (·.driver))).filter
    (fun p => 3 ≤ p.2)

/-- `get_repeat_offenders` (`daily_speeding_report.py:485-502`): drivers
with 3+ speeding events, sorted by worst single overspeed descending,
truncated to the top 10. -/
def get_repeat_offenders (events : List SpeedingEvent) : List (String × ℕ) :=
  let repeats_3plus := repeats3 events
  if repeats_3plus = [] then []
  else
    let sorted_names :=
      (Py.stableSort (fun a b => decide (worst_over events b ≤ worst_over events a))
        (repeats_3plus.map Prod.fst)).take 10
    sorted_names.map (fun n => (n, (repeats_3plus.lookup n).getD 0))

end DailySpeeding

namespace Weekly

/-- The fields of a weekly enriched camera event
(`_enrich_camera_event`, `weekly_casing_briefing.py:672-681`) that the
aggregation functions below read. -/
structure CamEvent where
  driver : String
  vehicle : String
  event_type : String
  display_name : String
  tier : Tier
  yard : String
deriving DecidableEq, Repr

/-- The fields of a weekly enriched speeding event
(`_enrich_speeding_event`, `weekly_casing_briefing.py:527-533`) that the
aggregation functions below read. -/
structure SpdEvent where
  driver : String
  vehicle : String
  overspeed : ℚ
  speed : ℚ
  tier : Tier
  yard : String
deriving DecidableEq, Repr

/-- `max(e["overspeed"] ...)` for the weekly repeat-speeders block. -/
def worst_over (events : List SpdEvent) (name : String) : ℚ :=
  (((events.filter (fun e => e.driver = name)).map (·.overspeed)).max?).getD 0

/-- The repeat-speeders block of the weekly document
(`weekly_casing_briefing.py:1542-1551`): drivers with 3+ speeding events
(excluding `"Unknown"`), listed with their counts sorted by worst single
overspeed descending (no cap). -/
def repeat_speeders (speeding_events : List SpdEvent) : List (String × ℕ) :=
  let driver_counts :=
    Py.counterList ((speeding_events.filter (fun e => e.driver ≠ "Unknown")).map (·.driver))
  let repeats := driver_counts.filter (fun p => 3 ≤ p.2)
  (Py.stableSort
      (fun a b => decide (worst_over speeding_events b ≤ worst_over speeding_events a))
      (repeats.map Prod.fst)).map
    (fun n => (n, (repeats.lookup n).getD 0))

def YARD_ORDER : List String :=
  ["Midland", "Bryan", "Kilgore", "Hobbs", "Jourdanton", "Laredo", "San Angelo"]

/-- One row of the Section-10 yard scorecard
(`weekly_casing_briefing.py:1884-1895`). -/
structure YardScore where
  yard : String
  vehicles : ℕ
  camera : ℕ
  speeding : ℕ
  total : ℕ
  rate : ℚ
deriving DecidableEq, Repr

/-- The `yard_scores` list before ranking
(`weekly_casing_briefing.py:1884-1895`): one entry per `YARD_ORDER` yard,
`rate = round(total / vehicles, 2)` when the yard has vehicles, else 0. -/
def yard_scores (camera_events : List CamEvent) (speeding_events : List SpdEvent)
    (yard_vehicle_counts : List (String × ℕ)) : List YardScore :=
  YARD_ORDER.map (fun yard =>
    let cam_count := (camera_events.filter (fun e => e.yard = yard)).length
    let spd_count := (speeding_events.filter (fun e => e.yard = yard)).length
    let total := cam_count + spd_count
    let vehicles := (yard_vehicle_counts.lookup yard).getD 0
    { yard := yard, vehicles := vehicles, camera := cam_count,
      speeding := spd_count, total := total,
      rate := if 0 < vehicles then Py.roundDec 2 ((total : ℚ) / vehicles) else 0 })

/-- `yard_scores.sort(key=lambda x: x["rate"], reverse=True)`
(`weekly_casing_briefing.py:1897`): stable descending sort by rate. -/
def rank_yard_scores (scores : List YardScore) : List YardScore :=
  Py.stableSort (fun a b => decide (b.rate ≤ a.rate)) scores

/-- Per-driver accumulator of `analyze_red_flag_drivers`
(`weekly_casing_briefing.py:1103-1125`).  The `kpa` list is declared by
the source but no loop ever appends to it. -/
structure DriverData where
  camera : List CamEvent
  speeding : List SpdEvent
  kpa : List KpaRow
  vehicle : String
  yard : String
deriving DecidableEq, Repr

/-- A red-flag driver record (`weekly_casing_briefing.py:1162-1168`). -/
structure RedFlag where
  name : String
  vehicle : String
  yard : String
  camera_count : ℕ
  camera_summary : String
  speeding_count : ℕ
  speeding_summary : String
  kpa_count : ℕ
  total : ℕ
  action : String
deriving DecidableEq, Repr

/-- Last non-empty value written by the accumulation loops (each event
with a truthy vehicle/yard overwrites the stored one). -/
def lastNonEmpty (xs : List String) : String :=
  ((xs.filter (fun s => s ≠ "")).getLast?).getD ""

/-- The `driver_data` dict of `analyze_red_flag_drivers`
(`weekly_casing_briefing.py:1103-1125`): keys are the non-`"Unknown"`
drivers of the camera then speeding events in first-occurrence order;
each driver's camera/speeding lists hold that driver's events in order,
`kpa` stays empty (no loop populates it), and vehicle/yard are the last
non-empty values seen. -/
def driver_data (camera_events : List CamEvent) (speeding_events : List SpdEvent) :
    List (String × DriverData) :=
  let names := Py.firstOccur
    (((camera_events.filter (fun e => e.driver ≠ "Unknown")).map (·.driver)) ++
     ((speeding_events.filter (fun e => e.driver ≠ "Unknown")).map (·.driver)))
  names.map (fun n =>
    let cams := camera_events.filter (fun e => e.driver = n)
    let spds := speeding_events.filter (fun e => e.driver = n)
    (n, { camera := cams, speeding := spds, kpa := [],
          vehicle := lastNonEmpty (cams.map (·.vehicle) ++ spds.map (·.vehicle)),
          yard := lastNonEmpty (cams.map (·.yard) ++ spds.map (·.yard)) }))

/-- Python `max(events, key=overspeed)`: first element attaining the
maximum (later elements replace only on strict increase). -/
def maxByOverspeed : List SpdEvent → Option SpdEvent
  | [] => none
  | x :: xs => some (xs.foldl (fun m e => if m.overspeed < e.overspeed then e else m) x)

/-- `_generate_action` (`weekly_casing_briefing.py:1173-1186`). -/
def generate_action (data : DriverData) : String :=
  let cam_types := data.camera.map (·.event_type)
  if cam_types.any (fun t => t = "drowsiness" ∨ t = "lane_swerving") then
    "Pattern: fatigue — address scheduling and rest compliance"
  else if cam_types.any (fun t => t = "distraction" ∨ t = "cell_phone") then
    "Pattern: distraction — formal coaching required"
  else if 5 ≤ data.speeding.length then
    "Pattern: speed non-compliance — formal coaching required"
  else if 3 ≤ data.camera.length ∧ 0 < data.speeding.length then
    "Multiple safety categories — supervisor meeting required"
  else
    "Cross-source flags — safety rep to review and coach"

/-- Flag predicate of `analyze_red_flag_drivers`
(`weekly_casing_briefing.py:1136-1147`). -/
def is_flagged (data : DriverData) : Bool :=
  (0 < data.camera.length ∧ 0 < data.speeding.length) ∨
  3 ≤ data.camera.length ∨
  5 ≤ data.speeding.length ∨
  (0 < data.camera.length ∧ 0 < data.kpa.length)

/-- The record appended for a flagged driver
(`weekly_casing_briefing.py:1149-1168`). -/
def flag_record (name : String) (data : DriverData) : RedFlag :=
  let cam_count := data.camera.length
  let spd_count := data.speeding.length
  let kpa_count := data.kpa.length
  let cam_summary := String.intercalate ", "
    ((Py.most_common (Py.counterList (data.camera.map (·.display_name)))).map
      (fun q => q.1 ++ " x" ++ toString q.2))
  let spd_summary :=
    match maxByOverspeed data.speeding with
    | some w =>
        Py.plural spd_count "event" ++ ", worst: +" ++ Py.floatRepr1 w.overspeed ++
          " over at " ++ Py.floatRepr1 w.speed ++ " mph"
    | none => ""
  { name := name, vehicle := data.vehicle, yard := data.yard,
    camera_count := cam_count, camera_summary := cam_summary,
    speeding_count := spd_count, speeding_summary := spd_summary,
    kpa_count := kpa_count, total := cam_count + spd_count + kpa_count,
    action := generate_action data }

/-- `analyze_red_flag_drivers` (`weekly_casing_briefing.py:1101-1170`).
The `kpa_incidents` argument is accepted but never read by the source
function — no loop iterates it, so every per-driver `kpa` list stays
empty.  The flagged records are sorted by total event count descending
(stable). -/
def analyze_red_flag_drivers (camera_events : List CamEvent)
    (speeding_events : List SpdEvent) (_kpa_incidents : List KpaRow) : List RedFlag :=
  let flagged := (driver_data camera_events speeding_events).filterMap
    (fun p => if is_flagged p.2 then some (flag_record p.1 p.2) else none)
  Py.stableSort (fun a b => decide (b.total ≤ a.total)) flagged

end Weekly

section ClaimC1

/-- C1: `analyze_red_flag_drivers` ignores its `kpa_incidents` argument
entirely — its output is the same for any two KPA inputs — and
consequently a driver with one camera event and a KPA incident on file is
not flagged (the per-driver KPA count is always 0, so flag rule (d) can
never fire). -/
theorem C1_red_flags_ignore_kpa :
    (∀ (cams : List Weekly.CamEvent) (spds : List Weekly.SpdEvent)
        (kpa kpa₂ : List KpaRow),
      Weekly.analyze_red_flag_drivers cams spds kpa
        = Weekly.analyze_red_flag_drivers cams spds kpa₂) ∧
    Weekly.analyze_red_flag_drivers
      [{ driver := "Alice", vehicle := "5010C", event_type := "hard_brake",
         display_name := "Hard Brake", tier := .ORANGE, yard := "Midland" }]
      [] [[("report number", "12345"), ("observer", "Alice")]] = [] := by
  constructor
  · intro cams spds kpa kpa₂
    rfl
  · decide

end ClaimC1

section ClaimC5

/-- The keys of the per-driver camera-event dict are exactly the named
drivers that occur in the event list. -/
lemma mem_driver_events_keys (events : List DailyCamera.CameraEvent) (name : String) :
    name ∈ (DailyCamera.driver_events events).map Prod.fst ↔
      (name ≠ "Unknown" ∧ ∃ e ∈ events, e.driver = name) := by
  unfold DailyCamera.driver_events
  rw [List.map_map]
  have hcomp : (Prod.fst ∘ fun n => (n, events.filter (fun e => e.driver = n))) = id := rfl
  rw [hcomp, List.map_id, Py.mem_firstOccur]
  simp only [List.mem_map, List.mem_filter, decide_eq_true_eq]
  constructor
  · rintro ⟨e, ⟨he, hne⟩, hdrv⟩
    exact ⟨hdrv ▸ hne, e, he, hdrv⟩
  · rintro ⟨hname, e, he, hdrv⟩
    exact ⟨e, ⟨he, hdrv ▸ hname⟩, hdrv⟩

/-- Membership in the daily-camera repeat-offender table is exactly
"named driver with 2 or more events". -/
lemma mem_camera_repeats_fst (events : List DailyCamera.CameraEvent) (name : String) :
    name ∈ (DailyCamera.get_repeat_offenders events).map Prod.fst ↔
      (name ≠ "Unknown" ∧ 2 ≤ (events.filter (fun e => e.driver = name)).length) := by
  unfold DailyCamera.get_repeat_offenders
  rw [((Py.stableSort_perm _ _).map Prod.fst).mem_iff, List.map_map]
  constructor
  · intro h
    obtain ⟨p, hp, hfst⟩ := List.mem_map.mp h
    obtain ⟨hpmem, hplen⟩ := List.mem_filter.mp hp
    obtain ⟨n, hn, hpn⟩ := List.mem_map.mp hpmem
    subst hpn
    simp only [Function.comp] at hfst
    subst hfst
    have hkeys : n ∈ (DailyCamera.driver_events events).map Prod.fst :=
      List.mem_map.mpr ⟨(n, events.filter (fun e => e.driver = n)),
        List.mem_map.mpr ⟨n, hn, rfl⟩, rfl⟩
    have hname := ((mem_driver_events_keys events n).mp hkeys).1
    refine ⟨hname, ?_⟩
    simpa using hplen
  · rintro ⟨hname, hlen⟩
    have hpos : 0 < (events.filter (fun e => e.driver = name)).length := by omega
    obtain ⟨e, he⟩ := List.exists_mem_of_length_pos hpos
    have he' := List.mem_filter.mp he
    have hedrv : e.driver = name := by simpa using he'.2
    refine List.mem_map.mpr ⟨(name, events.filter (fun e => e.driver = name)),
      List.mem_filter.mpr ⟨?_, by simpa using hlen⟩, rfl⟩
    unfold DailyCamera.driver_events
    refine List.mem_map.mpr ⟨name, ?_, rfl⟩
    rw [Py.mem_firstOccur]
    refine List.mem_map.mpr ⟨e, List.mem_filter.mpr ⟨he'.1, ?_⟩, hedrv⟩
    simp [hedrv, hname]

/-- Membership in a 3-plus-filtered `Counter` of the named drivers of an
event list is exactly "named driver with 3 or more events"; stated
generically over the driver projection so it covers the daily and weekly
speeding reducers alike. -/
lemma mem_counter_filter3_fst {α : Type} (f : α → String) (events : List α) (name : String) :
    name ∈ ((Py.counterList
        ((events.filter (fun e => f e ≠ "Unknown")).map f)).filter
          (fun p => 3 ≤ p.2)).map Prod.fst ↔
      (name ≠ "Unknown" ∧ 3 ≤ (events.filter (fun e => f e = name)).length) := by
  constructor
  · intro h
    obtain ⟨p, hp, hfst⟩ := List.mem_map.mp h
    obtain ⟨hpmem, hpc⟩ := List.mem_filter.mp hp
    obtain ⟨k, hk, hpk⟩ := List.mem_map.mp hpmem
    subst hpk
    simp only at hfst
    rw [← hfst]
    rw [Py.mem_firstOccur] at hk
    obtain ⟨e, hef, hedrv⟩ := List.mem_map.mp hk
    have hne : f e ≠ "Unknown" := by
      have := (List.mem_filter.mp hef).2
      simpa using this
    have hname : k ≠ "Unknown" := hedrv ▸ hne
    refine ⟨hname, ?_⟩
    rw [← Py.count_map_filter_ne f events k hname]
    simpa using hpc
  · rintro ⟨hname, hlen⟩
    have hcnt : 3 ≤ ((events.filter (fun e => f e ≠ "Unknown")).map f).count name := by
      rw [Py.count_map_filter_ne f events name hname]
      exact hlen
    have hmem : name ∈ ((events.filter (fun e => f e ≠ "Unknown")).map f) :=
      List.count_pos_iff.mp (by omega)
    refine List.mem_map.mpr ⟨(name,
        ((events.filter (fun e => f e ≠ "Unknown")).map f).count name),
      List.mem_filter.mpr ⟨?_, by simpa using hcnt⟩, rfl⟩
    simp only [Py.counterList, List.mem_map]
    exact ⟨name, (Py.mem_firstOccur _ _).mpr hmem, rfl⟩

end ClaimC5

/-- `mem_counter_filter3_fst` specialised to the daily speeding reducer. -/
lemma mem_repeats3_fst (events : List DailySpeeding.SpeedingEvent) (name : String) :
    name ∈ (DailySpeeding.repeats3 events).map Prod.fst ↔
      (name ≠ "Unknown" ∧ 3 ≤ (events.filter (fun e => e.driver = name)).length) := by
  unfold DailySpeeding.repeats3
  exact mem_counter_filter3_fst (fun e : DailySpeeding.SpeedingEvent => e.driver) events name

/-- A concrete enriched daily speeding event (only driver and overspeed
vary in the examples below). -/
def sampleSpeeding (name : String) (over : ℚ) : DailySpeeding.SpeedingEvent :=
  { driver := name, vehicle := "TD-TD33171", speed := 70, posted_speed := 58,
    overspeed := over, duration := "30s", severity := "unknown", time := "",
    location := "Unknown", maps_link := "", tier := .YELLOW,
    division := "Casing", yard := "Midland" }

/-- C5 counterexample: the claim says the daily speeding context reports
drivers at 2 events, but a driver with exactly 2 daily speeding events is
not reported — `get_repeat_offenders` in `daily_speeding_report.py`
requires 3. -/
theorem C5_daily_speeding_two_events_not_reported :
    DailySpeeding.get_repeat_offenders
      [sampleSpeeding "Bob" 12, sampleSpeeding "Bob" 11] = [] := by
  decide

/-- C5 (amended): the repeat-offender reducers count events per named
driver (excluding `"Unknown"`) with source-specific minimums of 2 for the
daily camera report and 3 for both the daily and the weekly speeding
reports; the daily speeding table is capped at 10 entries and ordered by
worst single overspeed descending, and under the cap every qualifying
driver appears. -/
theorem C5_repeat_offender_thresholds :
    (∀ (events : List DailyCamera.CameraEvent) (name : String),
      name ∈ (DailyCamera.get_repeat_offenders events).map Prod.fst ↔
        (name ≠ "Unknown" ∧ 2 ≤ (events.filter (fun e => e.driver = name)).length)) ∧
    (∀ (events : List DailySpeeding.SpeedingEvent) (name : String),
      name ∈ (DailySpeeding.get_repeat_offenders events).map Prod.fst →
        (name ≠ "Unknown" ∧ 3 ≤ (events.filter (fun e => e.driver = name)).length)) ∧
    (∀ events : List DailySpeeding.SpeedingEvent,
      (DailySpeeding.get_repeat_offenders events).length ≤ 10) ∧
    (∀ events : List DailySpeeding.SpeedingEvent,
      ((DailySpeeding.get_repeat_offenders events).map Prod.fst).Pairwise
        (fun a b => DailySpeeding.worst_over events b ≤ DailySpeeding.worst_over events a)) ∧
    (∀ (events : List DailySpeeding.SpeedingEvent) (name : String),
      name ≠ "Unknown" → 3 ≤ (events.filter (fun e => e.driver = name)).length →
      (DailySpeeding.repeats3 events).length ≤ 10 →
      name ∈ (DailySpeeding.get_repeat_offenders events).map Prod.fst) ∧
    (∀ (events : List Weekly.SpdEvent) (name : String),
      name ∈ (Weekly.repeat_speeders events).map Prod.fst ↔
        (name ≠ "Unknown" ∧ 3 ≤ (events.filter (fun e => e.driver = name)).length)) := by
  have hmapfst : ∀ {β : Type} (l : List String) (g : String → β),
      (l.map (fun n => (n, g n))).map Prod.fst = l := by
    intro β l g
    rw [List.map_map]
    have : (Prod.fst ∘ fun n => (n, g n)) = id := rfl
    rw [this, List.map_id]
  refine ⟨mem_camera_repeats_fst, ?_, ?_, ?_, ?_, ?_⟩
  · -- membership in the daily speeding table forces threshold 3
    intro events name h
    unfold DailySpeeding.get_repeat_offenders at h
    by_cases hnil : DailySpeeding.repeats3 events = []
    · simp [hnil] at h
    · rw [if_neg hnil, hmapfst] at h
      have h2 : name ∈ Py.stableSort
          (fun a b => decide (DailySpeeding.worst_over events b ≤ DailySpeeding.worst_over events a))
          ((DailySpeeding.repeats3 events).map Prod.fst) :=
        (List.take_sublist 10 _).mem h
      rw [Py.mem_stableSort] at h2
      exact (mem_repeats3_fst events name).mp h2
  · -- the daily speeding table has at most 10 rows
    intro events
    unfold DailySpeeding.get_repeat_offenders
    by_cases hnil : DailySpeeding.repeats3 events = []
    · simp [hnil]
    · rw [if_neg hnil]
      simp [List.length_take]
  · -- ordered by worst single overspeed descending
    intro events
    unfold DailySpeeding.get_repeat_offenders
    by_cases hnil : DailySpeeding.repeats3 events = []
    · simp [hnil]
    · rw [if_neg hnil, hmapfst]
      refine List.Pairwise.sublist (List.take_sublist 10 _) ?_
      have := Py.pairwise_stableSort
        (fun a b => decide (DailySpeeding.worst_over events b ≤ DailySpeeding.worst_over events a))
        (fun a b => by
          rcases le_total (DailySpeeding.worst_over events b) (DailySpeeding.worst_over events a)
            with hle | hle
          · exact Or.inl (by simpa using hle)
          · exact Or.inr (by simpa using hle))
        (fun a b c hab hbc => by
          simp only [decide_eq_true_eq] at hab hbc ⊢
          exact le_trans hbc hab)
        ((DailySpeeding.repeats3 events).map Prod.fst)
      exact this.imp (fun h => by simpa using h)
  · -- under the cap, every qualifying driver appears
    intro events name hname hlen hle10
    have hmem : name ∈ (DailySpeeding.repeats3 events).map Prod.fst :=
      (mem_repeats3_fst events name).mpr ⟨hname, hlen⟩
    have hnil : DailySpeeding.repeats3 events ≠ [] := by
      intro hc
      rw [hc] at hmem
      simp at hmem
    unfold DailySpeeding.get_repeat_offenders
    rw [if_neg hnil, hmapfst]
    have hlensort : (Py.stableSort
        (fun a b => decide (DailySpeeding.worst_over events b ≤ DailySpeeding.worst_over events a))
        ((DailySpeeding.repeats3 events).map Prod.fst)).length ≤ 10 := by
      rw [Py.length_stableSort, List.length_map]
      exact hle10
    rw [List.take_of_length_le hlensort, Py.mem_stableSort]
    exact hmem
  · -- weekly: membership iff named driver with 3+ events
    intro events name
    unfold Weekly.repeat_speeders
    rw [hmapfst, Py.mem_stableSort]
    exact mem_counter_filter3_fst (fun e : Weekly.SpdEvent => e.driver) events name

/-- C5 witness: with three speeding events, the driver is reported by the
daily speeding reducer, and with two camera events the driver is reported
by the daily camera reducer. -/
theorem C5_repeat_offender_thresholds_witness :
    "Bob" ∈ (DailySpeeding.get_repeat_offenders
      [sampleSpeeding "Bob" 12, sampleSpeeding "Bob" 11,
       sampleSpeeding "Bob" 14]).map Prod.fst :=
  C5_repeat_offender_thresholds.2.2.2.2.1
    [sampleSpeeding "Bob" 12, sampleSpeeding "Bob" 11, sampleSpeeding "Bob" 14]
    "Bob" (by decide) (by decide) (by decide)

section ClaimC9

/-- A concrete weekly camera event at the Midland yard. -/
def sampleCamMidland : Weekly.CamEvent :=
  { driver := "Alice", vehicle := "5010C", event_type := "hard_brake",
    display_name := "Hard Brake", tier := .ORANGE, yard := "Midland" }

lemma roundDec_zero_eq (n : ℕ) : Py.roundDec n 0 = 0 := by
  simp only [Py.roundDec, Py.roundHalfEven]
  norm_num

lemma roundDec_third : Py.roundDec 2 ((1 : ℚ)/3) = 33/100 := by
  have hf : ⌊(1 : ℚ)/3 * 10 ^ 2⌋ = 33 := by norm_num
  simp only [Py.roundDec, Py.roundHalfEven, hf]
  norm_num

/-- C9 counterexample: the scorecard rate is `round(total / vehicles, 2)`,
not the exact quotient the claim states — with 1 event and 3 vehicles the
code stores 0.33, which differs from 1/3. -/
theorem C9_rate_is_rounded_counterexample :
    ((Weekly.yard_scores [sampleCamMidland] [] [("Midland", 3)]).head?.map
      (fun s => s.rate)) = some (33/100) ∧ (33/100 : ℚ) ≠ 1/3 := by
  constructor
  · show some (if 0 < ((List.lookup "Midland" [("Midland", 3)]).getD 0) then
        Py.roundDec 2 ((((([sampleCamMidland].filter
            (fun e => e.yard = "Midland")).length +
          (([] : List Weekly.SpdEvent).filter (fun e => e.yard = "Midland")).length : ℕ)) : ℚ) /
          ((List.lookup "Midland" [("Midland", 3)]).getD 0)) else 0) = some (33/100)
    norm_num [sampleCamMidland, List.lookup, roundDec_third]
  · norm_num

/-- C9 (amended): the yard scorecard computes, for each yard of
`YARD_ORDER`, `rate = round((cameraCount + speedingCount) / vehicleCount, 2)`
(0 when the yard has no vehicles), and ranks the yards descending by rate
with ties kept in the original `YARD_ORDER` position (Python's stable
sort); with empty event lists every yard has rate 0 and the ranking is
exactly `YARD_ORDER`. -/
theorem C9_yard_scorecard :
    (∀ (cams : List Weekly.CamEvent) (spds : List Weekly.SpdEvent)
        (veh : List (String × ℕ)),
      (Weekly.rank_yard_scores (Weekly.yard_scores cams spds veh)).Perm
        (Weekly.yard_scores cams spds veh)) ∧
    (∀ (cams : List Weekly.CamEvent) (spds : List Weekly.SpdEvent)
        (veh : List (String × ℕ)),
      (Weekly.rank_yard_scores (Weekly.yard_scores cams spds veh)).Pairwise
        (fun a b => b.rate ≤ a.rate ∧ (a.rate ≤ b.rate →
          Weekly.YARD_ORDER.indexOf a.yard < Weekly.YARD_ORDER.indexOf b.yard))) ∧
    (∀ (cams : List Weekly.CamEvent) (spds : List Weekly.SpdEvent)
        (veh : List (String × ℕ)) (s : Weekly.YardScore),
      s ∈ Weekly.yard_scores cams spds veh →
        s.rate = (if 0 < s.vehicles then Py.roundDec 2 ((s.total : ℚ) / s.vehicles) else 0) ∧
        s.total = s.camera + s.speeding) ∧
    (∀ veh : List (String × ℕ),
      Weekly.rank_yard_scores (Weekly.yard_scores [] [] veh)
          = Weekly.yard_scores [] [] veh ∧
        (∀ s ∈ Weekly.yard_scores [] [] veh, s.rate = 0) ∧
        (Weekly.yard_scores [] [] veh).map (fun s => s.yard) = Weekly.YARD_ORDER) := by
  have hyard : ∀ (cams : List Weekly.CamEvent) (spds : List Weekly.SpdEvent)
      (veh : List (String × ℕ)) (s : Weekly.YardScore),
      s ∈ Weekly.yard_scores cams spds veh → s.yard ∈ Weekly.YARD_ORDER := by
    intro cams spds veh s hs
    obtain ⟨y, hy, hys⟩ := List.mem_map.mp hs
    rw [← hys]
    exact hy
  refine ⟨?_, ?_, ?_, ?_⟩
  · intro cams spds veh
    exact Py.stableSort_perm _ _
  · intro cams spds veh
    have hsec : (Weekly.yard_scores cams spds veh).Pairwise
        (fun a b => Weekly.YARD_ORDER.indexOf a.yard < Weekly.YARD_ORDER.indexOf b.yard) := by
      unfold Weekly.yard_scores
      rw [List.pairwise_map]
      have : Weekly.YARD_ORDER.Pairwise
          (fun x y => Weekly.YARD_ORDER.indexOf x < Weekly.YARD_ORDER.indexOf y) := by
        decide
      exact this.imp (fun h => h)
    have := Py.stableSort_stable (fun a b => decide (b.rate ≤ a.rate))
      (fun s => Weekly.YARD_ORDER.indexOf s.yard)
      (fun a b => by
        rcases le_total b.rate a.rate with hle | hle
        · exact Or.inl (by simpa using hle)
        · exact Or.inr (by simpa using hle))
      (fun a b c hab hbc => by
        simp only [decide_eq_true_eq] at hab hbc ⊢
        exact le_trans hbc hab)
      (Weekly.yard_scores cams spds veh) hsec
    exact this.imp (fun h => ⟨by simpa using h.1, fun hr => h.2 (by simpa using hr)⟩)
  · intro cams spds veh s hs
    obtain ⟨y, _, hys⟩ := List.mem_map.mp hs
    rw [← hys]
    exact ⟨rfl, rfl⟩

  · intro veh
    have hrate : ∀ s ∈ Weekly.yard_scores [] [] veh, s.rate = 0 := by
      intro s hs
      obtain ⟨y, _, hys⟩ := List.mem_map.mp hs
      rw [← hys]
      simp only [List.filter_nil, List.length_nil]
      by_cases hv : 0 < ((veh.lookup y).getD 0)
      · rw [if_pos hv]
        norm_num [roundDec_zero_eq]
      · rw [if_neg hv]
    refine ⟨?_, hrate, ?_⟩
    · exact Py.stableSort_all_eq _ _ (fun a ha b hb => by
        simp [hrate a ha, hrate b hb])
    · unfold Weekly.yard_scores
      rw [List.map_map]
      exact List.map_id _
end ClaimC9

/-- The Midland row of an empty-input scorecard. -/
def midlandZeroScore : Weekly.YardScore :=
  { yard := "Midland", vehicles := 0, camera := 0, speeding := 0, total := 0, rate := 0 }

/-- C9 witness: the rate equation instantiated at the Midland row of an
empty-input scorecard. -/
theorem C9_yard_scorecard_witness :
    midlandZeroScore.rate = (if 0 < midlandZeroScore.vehicles then
        Py.roundDec 2 ((midlandZeroScore.total : ℚ) / midlandZeroScore.vehicles) else 0) :=
  (C9_yard_scorecard.2.2.1 [] [] [] midlandZeroScore
    (List.mem_map.mpr ⟨"Midland", by simp [Weekly.YARD_ORDER], rfl⟩)).1

/-- C8 witness: run on a Monday (epoch day 4, i.e. 1970-01-05, 06:00 UTC
= Central midnight), the returned Sunday is the previous calendar day. -/
theorem C8_week_range_witness :
    (Weekly.get_week_range 367200).2.2.2 = 3 := by
  have ht : Weekly.todayDayOf 367200 = 4 := by
    unfold Weekly.todayDayOf
    norm_num
  have hw : Weekly.weekdayOf (Weekly.todayDayOf 367200) = 0 := by
    rw [ht]
    decide
  have h := (C8_week_range 367200).2.2.2.2.2.2.2 hw
  rw [ht] at h
  norm_num at h
  exact h

namespace Weekly

/-- `_KPA_META_FIELDS` (`weekly_casing_briefing.py:717-721`). -/
def META_FIELDS : List String := [
  "report number", "date", "observer", "status", "link", "kpa_link",
  "name", "Name", "form", "form_id", "updated_at", "created_at",
  "report", "id", "response_id"]

/-- `_POSITIVE_PHRASES` (`weekly_casing_briefing.py:724-734`). -/
def POSITIVE_PHRASES : List String := [
  "no unsafe practices", "good hand placement", "good communication",
  "all good", "no issues", "doing a good job", "no findings",
  "good job", "no concerns", "satisfactory", "in compliance",
  "properly worn", "properly secured", "no deficiencies",
  "good housekeeping", "well maintained", "good condition",
  "no hazards", "no violations", "no corrective",
  "safe practices", "following procedure", "good practice",
  "proper hand placement", "no members placing",
  "keeping hands out of hazardous", "maintaining proper body positioning"]

/-- `_POSITIVE_PREFIXES` (`weekly_casing_briefing.py:737`). -/
def POSITIVE_PREFIXES : List String := ["proper ", "no members ", "no unsafe "]

/-- `_CORRECTIVE_KEYWORDS` (`weekly_casing_briefing.py:740-746`). -/
def CORRECTIVE_KEYWORDS : List String := [
  "corrected", "found", "issue", "should not", "replaced", "reminded",
  "had to", "violated", "failed", "missing", "damaged", "broken",
  "not worn", "not completed", "not following", "not in compliance",
  "improper", "unsafe", "need to", "needs", "disappointed",
  "hazard", "deficien", "violation", "incomplete", "expired"]

/-- `_FINDING_KEYWORDS` (`weekly_casing_briefing.py:749-758`). -/
def FINDING_KEYWORDS : List String := [
  "corrective", "corrected", "finding", "found", "hazard", "deficien",
  "violation", "issue", "damaged", "broken", "missing", "expired",
  "not completed", "not worn", "failed", "needs repair", "need to",
  "needs replacement", "out of date", "should not", "replaced",
  "disappointed", "no jsa", "no ppe", "not in compliance",
  "not following", "improper", "unsafe", "leak", "spill", "trip",
  "not secured", "unsecured", "obstruct", "crack", "worn", "frayed",
  "no fire", "no extinguisher", "no permit", "incomplete"]

/-- The single-value skip set of `_extract_findings`
(`weekly_casing_briefing.py:976-980`). -/
def SKIP_VALUES : List String := [
  "yes", "no", "n/a", "na", "pass", "ok", "good", "safe",
  "true", "false", "compliant", "satisfactory", "acceptable",
  "not applicable", "none", "no issues", "no findings",
  "casing", "csg", "brhas", "butch"]

/-- The company/operator key skip set of `_extract_findings`
(`weekly_casing_briefing.py:994-996`). -/
def OPERATOR_KEYS : List String := [
  "operator", "company", "division", "department", "location",
  "site", "yard", "area", "unit", "rig", "crew", "shift"]

/-- The per-field decision of `_extract_findings`
(`weekly_casing_briefing.py:945-1001`): the chain of skip rules followed
by the final corrective-keyword requirement.  Note that a value containing
a positive phrase is skipped unconditionally (line 983), while the
corrective-keyword rescue applies only to the positive prefixes
(lines 989-991). -/
def keepFinding (key val : String) : Bool :=
  if val = "" then false
  else
    let key_lower := Py.stripStr (Py.lowerStr key)
    if (META_FIELDS.map Py.lowerStr).contains key_lower then false
    else
      let val_stripped := Py.stripStr val
      if val_stripped = "" ∨ val_stripped.data.length < 5 then false
      else
        let val_lower := Py.lowerStr val_stripped
        if Py.containsStr "http://" val_lower || Py.containsStr "https://" val_lower then
          false
        else if Py.isDigitL (Py.removeChars ['.', '-', '/', ':', ' '] val_stripped.data) then
          false
        else if val_stripped.data.length < 30 &&
            Py.isAlnumL (Py.removeChars ['_', '-'] val_stripped.data) &&
            !(val_stripped.data.any (fun c => c = ' ')) &&
            !(FINDING_KEYWORDS.any (fun kw => Py.containsStr kw val_lower)) then
          false
        else if SKIP_VALUES.contains val_lower then false
        else if POSITIVE_PHRASES.any (fun p => Py.containsStr p val_lower) then false
        else if (POSITIVE_PREFIXES.any (fun p => Py.startsWithStr p val_lower)) &&
            !(CORRECTIVE_KEYWORDS.any (fun ck => Py.containsStr ck val_lower)) then
          false
        else if OPERATOR_KEYS.contains key_lower then false
        else CORRECTIVE_KEYWORDS.any (fun ck => Py.containsStr ck val_lower)

/-- `_extract_findings` (`weekly_casing_briefing.py:935-1003`): scan the
row's fields in order, keeping the stripped values that pass
`keepFinding`.  An empty result classifies the assessment "clean". -/
def extract_findings : KpaRow → List String
  | [] => []
  | (key, val) :: rest =>
    (if keepFinding key val then [Py.stripStr val] else []) ++ extract_findings rest

end Weekly

/-- C2 counterexample: a field value containing the positive phrase
`"good housekeeping"` is skipped even though it also contains the
corrective keyword `"corrected"` — the phrase check fires before the
corrective-keyword rescue, so the record yields no finding where the
claim requires exactly one. -/
theorem C2_positive_phrase_not_rescued :
    Weekly.extract_findings [("observation", "good housekeeping corrected")] = [] ∧
    Weekly.CORRECTIVE_KEYWORDS.any
      (fun ck => Py.containsStr ck (Py.lowerStr "good housekeeping corrected")) = true := by
  constructor
  · decide
  · decide

set_option maxHeartbeats 1000000 in
lemma keepFinding_implies (key val : String)
    (hk : Weekly.keepFinding key val = true) :
    Weekly.CORRECTIVE_KEYWORDS.any
      (fun ck => Py.containsStr ck (Py.lowerStr (Py.stripStr val))) = true ∧
    Weekly.POSITIVE_PHRASES.any
      (fun p => Py.containsStr p (Py.lowerStr (Py.stripStr val))) = false := by
  simp only [Weekly.keepFinding] at hk
  split_ifs at hk with h1 h2 h3 h4 h5 h6 h7 h8 h9 h10
  exact ⟨hk, by simpa using h8⟩

/-- C2 (amended): every extracted finding contains a corrective keyword
and no positive phrase — a value containing a known positive phrase is
excluded unconditionally, and the corrective-keyword rescue applies only
to values that merely start with a positive prefix; consequently a record
whose only non-metadata text starts with a positive prefix and has no
corrective keyword yields an empty findings list, and the same text with
a corrective clause yields exactly one finding. -/
theorem C2_finding_extraction :
    (∀ (row : KpaRow) (f : String), f ∈ Weekly.extract_findings row →
      Weekly.CORRECTIVE_KEYWORDS.any
        (fun ck => Py.containsStr ck (Py.lowerStr f)) = true ∧
      Weekly.POSITIVE_PHRASES.any
        (fun p => Py.containsStr p (Py.lowerStr f)) = false) ∧
    Weekly.extract_findings [("observation", "Proper PPE was worn")] = [] ∧
    Weekly.extract_findings [("observation", "Proper PPE was not worn, replaced on site")]
      = ["Proper PPE was not worn, replaced on site"] := by
  refine ⟨?_, by decide, by decide⟩
  intro row f
  induction row with
  | nil =>
    intro hf
    simp [Weekly.extract_findings] at hf
  | cons kv rest ih =>
    obtain ⟨key, val⟩ := kv
    intro hf
    simp only [Weekly.extract_findings, List.mem_append] at hf
    rcases hf with hf | hf
    · by_cases hk : Weekly.keepFinding key val = true
      · rw [if_pos hk] at hf
        simp only [List.mem_singleton] at hf
        subst hf
        exact keepFinding_implies key val hk
      · rw [if_neg hk] at hf
        simp at hf
    · exact ih hf

/-- C2 witness: the amended theorem applied to the concrete
prefix-plus-corrective record — the extracted finding indeed contains a
corrective keyword and no positive phrase. -/
theorem C2_finding_extraction_witness :
    Weekly.CORRECTIVE_KEYWORDS.any (fun ck => Py.containsStr ck
      (Py.lowerStr "Proper PPE was not worn, replaced on site")) = true ∧
    Weekly.POSITIVE_PHRASES.any (fun p => Py.containsStr p
      (Py.lowerStr "Proper PPE was not worn, replaced on site")) = false :=
  C2_finding_extraction.1
    [("observation", "Proper PPE was not worn, replaced on site")]
    "Proper PPE was not worn, replaced on site" (by decide)

/-- A JSON-like Python value as received from the vendor APIs.  Python
floats and ints are both modelled as exact rationals. -/
inductive PyVal where
  | none
  | bool (b : Bool)
  | num (q : ℚ)
  | str (s : String)
  | list (l : List PyVal)
  | dict (d : List (String × PyVal))
deriving Repr

/-- A raised Python exception, identified by its type name. -/
abbrev PyErr := String

namespace PyVal

/-- Python truthiness. -/
def truthy : PyVal → Bool
  | .none => false
  | .bool b => b
  | .num q => q ≠ 0
  | .str s => s ≠ ""
  | .list l => !l.isEmpty
  | .dict d => !d.isEmpty

/-- Python `a or b`. -/
def pyOr (a b : PyVal) : PyVal := if a.truthy then a else b

/-- `event.get(k)` on a dict (default `None`). -/
def getN (d : List (String × PyVal)) (k : String) : PyVal :=
  (d.lookup k).getD .none

/-- `event.get(k, default)` on a dict. -/
def getD (d : List (String × PyVal)) (k : String) (default : PyVal) : PyVal :=
  (d.lookup k).getD default

/-- A numeric rendering used by `str()` and f-strings: integers print
bare, one-decimal floats print with their decimal (the only numeric
shapes these reports produce). -/
def reprQ (q : ℚ) : String :=
  if q.den = 1 then toString q.num else Py.floatRepr1 q

/-- Python `str(x)` / f-string interpolation.  Containers render as an
opaque placeholder — no modelled code path or property below observes
their text. -/
def pyStr : PyVal → String
  | .none => "None"
  | .bool true => "True"
  | .bool false => "False"
  | .num q => reprQ q
  | .str s => s
  | .list _ => "[...]"
  | .dict _ => "\x7b...\x7d"

/-- `x * c` for a float constant `c`: numbers (and bools, which are ints)
multiply; strings, `None` and containers raise `TypeError`. -/
def mulConst (v : PyVal) (c : ℚ) : Except PyErr ℚ :=
  match v with
  | .num q => .ok (q * c)
  | .bool b => .ok ((if b then 1 else 0) * c)
  | _ => .error "TypeError"

/-- A numeric string accepted by Python's `float()`:
optional sign, digits with an optional decimal point (exponent forms are
not produced by the vendor data and are not modelled). -/
def parseFloatStr (s : String) : Option ℚ :=
  let l := Py.stripChars s.data
  let (sign, l2) := match l with
    | '-' :: r => ((-1 : ℚ), r)
    | '+' :: r => ((1 : ℚ), r)
    | r => ((1 : ℚ), r)
  let intPart := l2.takeWhile Char.isDigit
  let rest := l2.dropWhile Char.isDigit
  let build := fun (ip fp : List Char) =>
    let iv : ℚ := ip.foldl (fun a c => a * 10 + ((c.toNat - 48 : ℕ) : ℚ)) (0 : ℚ)
    let fv : ℚ := (fp.foldl (fun a c => a * 10 + ((c.toNat - 48 : ℕ) : ℚ)) (0 : ℚ)) /
      (10 : ℚ) ^ fp.length
    some (sign * (iv + fv))
  match rest with
  | [] => if intPart.isEmpty then Option.none else build intPart []
  | '.' :: fr =>
    let fracPart := fr.takeWhile Char.isDigit
    if fr.dropWhile Char.isDigit ≠ [] then Option.none
    else if intPart.isEmpty ∧ fracPart.isEmpty then Option.none
    else build intPart fracPart
  | _ => Option.none

/-- Python `float(x)`: numbers and bools convert, numeric strings parse
(`ValueError` otherwise), anything else raises `TypeError`. -/
def toFloat : PyVal → Except PyErr ℚ
  | .num q => .ok q
  | .bool b => .ok (if b then 1 else 0)
  | .str s =>
    match parseFloatStr s with
    | some q => .ok q
    | Option.none => .error "ValueError"
  | _ => .error "TypeError"

/-- A value whose truthy forms are numeric (the shapes for which the
arithmetic and `:.4f` formatting below cannot raise). -/
def numericOrFalsy : PyVal → Bool
  | .none => true
  | .bool _ => true
  | .num _ => true
  | .str s => s = ""
  | .list l => l.isEmpty
  | .dict d => d.isEmpty

/-- A value that is a string or falsy (the shapes on which
`_normalize_event_type` cannot raise). -/
def strOrFalsy : PyVal → Bool
  | .str _ => true
  | v => !v.truthy

end PyVal

namespace Py

/-- Left-pad a natural number with zeros to `k` digits. -/
def padZeros (k : ℕ) (n : ℕ) : String :=
  let s := toString n
  String.mk (List.replicate (k - s.length) '0') ++ s

/-- Python `format(q, '.kf')`: fixed-point with `k` decimals, ties to
even. -/
def fixedDec (k : ℕ) (q : ℚ) : String :=
  let n := roundHalfEven (q * (10 : ℚ) ^ k)
  let sign := if n < 0 then "-" else ""
  let base : ℕ := 10 ^ k
  sign ++ toString (n.natAbs / base) ++ "." ++ padZeros k (n.natAbs % base)

end Py

/-- `f"{x:.4f}"`: formats numbers (and bools, which are ints); any other
truthy value raises. -/
def PyVal.formatF4 : PyVal → Except PyErr String
  | .num q => .ok (Py.fixedDec 4 q)
  | .bool b => .ok (Py.fixedDec 4 (if b then 1 else 0))
  | _ => .error "ValueError"

namespace Py

/-- Days since the Unix epoch of a civil date (Howard Hinnant's
`days_from_civil` algorithm, as used by Python's date arithmetic). -/
def daysFromCivil (y m d : ℤ) : ℤ :=
  let y2 := if m ≤ 2 then y - 1 else y
  let era := Int.fdiv y2 400
  let yoe := y2 - era * 400
  let mp := (m + 9) % 12
  let doy := (153 * mp + 2) / 5 + d - 1
  let doe := yoe * 365 + yoe / 4 - yoe / 100 + doy
  era * 146097 + doe - 719468

/-- Civil date of a day number (inverse of `daysFromCivil`). -/
def civilFromDays (z0 : ℤ) : ℤ × ℤ × ℤ :=
  let z := z0 + 719468
  let era := Int.fdiv z 146097
  let doe := z - era * 146097
  let yoe := (doe - doe / 1460 + doe / 36524 - doe / 146096) / 365
  let y := yoe + era * 400
  let doy := doe - (365 * yoe + yoe / 4 - yoe / 100)
  let mp := (5 * doy + 2) / 153
  let d := doy - (153 * mp + 2) / 5 + 1
  let m := if mp < 10 then mp + 3 else mp - 9
  (if m ≤ 2 then y + 1 else y, m, d)

def isLeap (y : ℤ) : Bool :=
  y % 4 = 0 && (y % 100 ≠ 0 || y % 400 = 0)

def daysInMonth (y m : ℤ) : ℤ :=
  if m = 2 then (if isLeap y then 29 else 28)
  else if m = 4 ∨ m = 6 ∨ m = 9 ∨ m = 11 then 30
  else 31

/-- Value of a fixed-width digit field; `Option.none` unless every
character is a digit. -/
def digitField (l : List Char) : Option ℕ :=
  if l.all Char.isDigit ∧ !l.isEmpty then
    some (l.foldl (fun a c => a * 10 + (c.toNat - 48)) 0)
  else
    Option.none

/-- The fixed UTC-6 Central offset in seconds (the scripts' own
`zoneinfo`-unavailable fallback, `daily_speeding_report.py:44`). -/
def centralOffsetSecs : ℤ := 21600

/-- A UTC-offset suffix `±HH:MM`, in seconds east of UTC. -/
def parseOffsetSuffix : List Char → Option (Option ℤ)
  | [] => some Option.none
  | c :: h1 :: h2 :: ':' :: m1 :: m2 :: [] =>
    if c = '+' ∨ c = '-' then
      match digitField [h1, h2], digitField [m1, m2] with
      | some hh, some mm =>
        if hh < 24 ∧ mm < 60 then
          some (some ((if c = '-' then -1 else 1) * (hh * 3600 + mm * 60)))
        else Option.none
      | _, _ => Option.none
    else Option.none
  | _ => Option.none

/-- An optional fractional-seconds part `.d+`, with the remaining
characters. -/
def parseFracPart : List Char → Option (ℚ × List Char)
  | '.' :: rest =>
    let digs := rest.takeWhile Char.isDigit
    if digs.isEmpty then Option.none
    else some (((digs.foldl (fun a c => a * 10 + (c.toNat - 48)) 0 : ℕ) : ℚ) /
        (10 : ℚ) ^ digs.length,
      rest.dropWhile Char.isDigit)
  | rest => some (0, rest)

/-- `datetime.fromisoformat` on `YYYY-MM-DD[*HH:MM[:SS[.f+]]][±HH:MM]`,
as epoch seconds.  A string without an offset is naive; the scripts only
ever convert such values with `astimezone`, which interprets them in the
machine's local timezone — modelled as the fixed Central offset. -/
def parseIso (s : String) : Option ℚ :=
  match s.data with
  | y1 :: y2 :: y3 :: y4 :: '-' :: m1 :: m2 :: '-' :: d1 :: d2 :: rest =>
    match digitField [y1, y2, y3, y4], digitField [m1, m2], digitField [d1, d2] with
    | some y, some m, some d =>
      if 1 ≤ m ∧ m ≤ 12 ∧ 1 ≤ d ∧ (d : ℤ) ≤ daysInMonth y m then
        let dayPart : ℤ := daysFromCivil y m d
        match rest with
        | [] => some ((dayPart * 86400 + centralOffsetSecs : ℤ) : ℚ)
        | sep :: h1 :: h2 :: ':' :: mi1 :: mi2 :: rest2 =>
          if sep = 'T' ∨ sep = ' ' then
            match digitField [h1, h2], digitField [mi1, mi2] with
            | some hh, some mi =>
              if hh < 24 ∧ mi < 60 then
                let parseTail := fun (ss : ℕ) (tl : List Char) =>
                  match parseFracPart tl with
                  | some (frac, tl2) =>
                    match parseOffsetSuffix tl2 with
                    | some off =>
                      let naive : ℚ :=
                        ((dayPart * 86400 + hh * 3600 + mi * 60 + ss : ℤ) : ℚ) + frac
                      some (match off with
                        | some o => naive - (o : ℚ)
                        | Option.none => naive + (centralOffsetSecs : ℚ))
                    | Option.none => Option.none
                  | Option.none => Option.none
                match rest2 with
                | ':' :: s1 :: s2 :: tl =>
                  match digitField [s1, s2] with
                  | some ss => if ss < 60 then parseTail ss tl else Option.none
                  | Option.none => Option.none
                | tl =>
                  match parseOffsetSuffix tl with
                  | some off =>
                    let naive : ℚ := ((dayPart * 86400 + hh * 3600 + mi * 60 : ℤ) : ℚ)
                    some (match off with
                      | some o => naive - (o : ℚ)
                      | Option.none => naive + (centralOffsetSecs : ℚ))
                  | Option.none => Option.none
              else Option.none
            | _, _ => Option.none
          else Option.none
        | _ => Option.none
      else Option.none
    | _, _, _ => Option.none
  | _ => Option.none

/-- `datetime.strptime(s, '%Y-%m-%d %H:%M:%S')` followed by
`.timestamp()`: epoch seconds of a naive Central-time datetime
(`get_kpa_data_weekly`, `weekly_casing_briefing.py:825-826`). -/
def parseKpaDate (s : String) : Option ℤ :=
  match s.data with
  | y1 :: y2 :: y3 :: y4 :: '-' :: m1 :: m2 :: '-' :: d1 :: d2 :: ' ' ::
      h1 :: h2 :: ':' :: mi1 :: mi2 :: ':' :: s1 :: s2 :: [] =>
    match digitField [y1, y2, y3, y4], digitField [m1, m2], digitField [d1, d2],
        digitField [h1, h2], digitField [mi1, mi2], digitField [s1, s2] with
    | some y, some m, some d, some hh, some mi, some ss =>
      if 1 ≤ m ∧ m ≤ 12 ∧ 1 ≤ d ∧ (d : ℤ) ≤ daysInMonth y m ∧
          hh < 24 ∧ mi < 60 ∧ ss < 60 then
        some (daysFromCivil y m d * 86400 + hh * 3600 + mi * 60 + ss + centralOffsetSecs)
      else Option.none
    | _, _, _, _, _, _ => Option.none
  | _ => Option.none

/-- `strftime("%m/%d/%Y %I:%M %p CT")` of an instant, in the fixed
Central offset. -/
def strftimeCentral (t : ℚ) : String :=
  let tl := t - (centralOffsetSecs : ℚ)
  let day : ℤ := ⌊tl / 86400⌋
  let sod : ℤ := ⌊tl⌋ - day * 86400
  let ymd := civilFromDays day
  let hour := sod / 3600
  let minute := (sod % 3600) / 60
  let h12 := if hour % 12 = 0 then 12 else hour % 12
  let ampm := if hour < 12 then "AM" else "PM"
  padZeros 2 ymd.2.1.natAbs ++ "/" ++ padZeros 2 ymd.2.2.natAbs ++ "/" ++
    toString ymd.1 ++ " " ++ padZeros 2 h12.natAbs ++ ":" ++
    padZeros 2 minute.natAbs ++ " " ++ ampm ++ " CT"

/-- Python `str.title()` (ASCII): uppercase a letter that follows a
non-letter, lowercase the rest. -/
def titleStr (s : String) : String :=
  String.mk ((s.data.foldl (fun (acc : List Char × Bool) c =>
    ((acc.1 ++ [if acc.2 then c.toLower else c.toUpper]), c.isAlpha)) ([], false)).1)

end Py

/-- `_utc_to_central` (identical in all three scripts): formats a
parseable UTC timestamp in Central time; on any failure — including a
non-string input, whose `.replace` raises inside the `try` — returns
`str()` of the input. -/
def PyVal.utc_to_central (v : PyVal) : String :=
  match v with
  | .str s =>
    match Py.parseIso (Py.replaceSub "Z" "+00:00" s) with
    | some t => Py.strftimeCentral t
    | Option.none => s
  | w => pyStr w

/-- `_format_duration` (identical in all three scripts): `"N/A"` for a
falsy or non-numeric value, else seconds/minutes formatting of the
truncated integer value (bools are ints in Python). -/
def PyVal.format_duration (v : PyVal) : String :=
  match v with
  | .num q =>
    if q = 0 then "N/A"
    else
      let s := Py.truncInt q
      if s < 60 then toString s ++ "s"
      else
        let minutes := Int.fdiv s 60
        let secs := Int.emod s 60
        if secs ≠ 0 then toString minutes ++ "m " ++ toString secs ++ "s"
        else toString minutes ++ "m"
  | .bool b => if b then "1s" else "N/A"
  | _ => "N/A"

namespace Py

lemma splitFirst_snd_length_lt (sep : Char) (l a b : List Char)
    (h : splitFirst sep l = some (a, b)) : b.length < l.length := by
  induction l generalizing a b with
  | nil => simp [splitFirst] at h
  | cons c cs ih =>
    simp only [splitFirst] at h
    split_ifs at h with hc
    · cases h
      simp
    · cases hsp : splitFirst sep cs with
      | none => rw [hsp] at h; cases h
      | some p =>
        rw [hsp] at h
        cases h
        have := ih p.1 p.2 (by rw [hsp])
        simp only [List.length_cons]
        omega

lemma stripChars_length_le (l : List Char) : (stripChars l).length ≤ l.length := by
  unfold stripChars
  calc ((l.dropWhile Char.isWhitespace).reverse.dropWhile Char.isWhitespace).reverse.length
      = ((l.dropWhile Char.isWhitespace).reverse.dropWhile Char.isWhitespace).length := by
        simp
    _ ≤ (l.dropWhile Char.isWhitespace).reverse.length :=
        List.Sublist.length_le (List.dropWhile_sublist _)
    _ = (l.dropWhile Char.isWhitespace).length := by simp
    _ ≤ l.length := List.Sublist.length_le (List.dropWhile_sublist _)

lemma lstripSet_length_le (cs l : List Char) : (lstripSet cs l).length ≤ l.length :=
  List.Sublist.length_le (List.dropWhile_sublist _)

/-- The numeric-token-stripping loop of the driver-name parser (the
`while` loop at `daily_speeding_report.py:427-431` and its twins). -/
def parse_name_loop (cand : List Char) : List Char :=
  if !cand.isEmpty && isDigitL (removeChars ['-'] (cand.takeWhile (fun c => c ≠ ' '))) then
    match hsp : splitFirst ' ' cand with
    | some p => parse_name_loop (lstripSet ['-', ' '] (stripChars p.2))
    | Option.none => []
  else cand
termination_by cand.length
decreasing_by
  have h1 := splitFirst_snd_length_lt ' ' cand p.1 p.2 hsp
  have h2 := stripChars_length_le p.2
  have h3 := lstripSet_length_le ['-', ' '] (stripChars p.2)
  omega

/-- Parse a driver name out of a vehicle-number string
(`daily_speeding_report.py:424-433` and its twins): take the text after
the first space, strip leading dashes/spaces, drop leading numeric
tokens, and accept the remainder if it is longer than 2 characters and
contains a letter. -/
def parse_name_from_vehicle (vehicle_number : String) : String :=
  match splitFirst ' ' vehicle_number.data with
  | Option.none => ""
  | some p =>
    let final := parse_name_loop (lstripSet ['-', ' '] (stripChars p.2))
    if 2 < final.length ∧ final.any Char.isAlpha then String.mk final else ""

end Py

/-- Python `m.get(key)` on a string-keyed dict, for an arbitrary key
value: an unhashable key (`list`/`dict`) raises `TypeError`; a hashable
non-string key (number, bool, `None`) simply misses. -/
def PyVal.strMapGet {β : Type} (m : List (String × β)) : PyVal → Except PyErr (Option β)
  | .str s => .ok (m.lookup s)
  | .list _ => .error "TypeError"
  | .dict _ => .error "TypeError"
  | _ => .ok Option.none

/-- Python `" " in v`: substring test on a string, element test on a
list, key test on a dict; `TypeError` on a number, bool or `None`. -/
def PyVal.containsSpace : PyVal → Except PyErr Bool
  | .str s => .ok (Py.containsStr " " s)
  | .list l => .ok (l.any (fun x => match x with | .str s => s == " " | _ => false))
  | .dict d => .ok (d.any (fun kv => kv.1 == " "))
  | _ => .error "TypeError"

/-- Python `v in collection` for a collection of strings: only a string
value can match.  (An unhashable value would raise on a set, but every
call site below runs after `strMapGet` has already raised for those.) -/
def PyVal.memStrList (v : PyVal) (l : List String) : Bool :=
  match v with
  | .str s => l.contains s
  | _ => false

/-- Whether a value is a Python `str`. -/
def PyVal.isStr : PyVal → Bool
  | .str _ => true
  | _ => false

lemma PyVal.isStr_spec : ∀ (v : PyVal), v.isStr = true → ∃ s, v = .str s
  | .str s, _ => ⟨s, rfl⟩

/-- The driver-name resolution chain shared verbatim by all three
enrichers (`daily_casing_camera_report.py:640-659`,
`daily_speeding_report.py:416-435`, `weekly_casing_briefing.py:634-652`):
vehicle lookup, then an embedded driver sub-object, then parsing the
vehicle-number string, then the `"Unknown"` sentinel.  The raw vehicle
number is used unconverted: the initial `vehicle_drivers.get` raises
`TypeError` for an unhashable number, the `" " in vehicle_number` test
raises `TypeError` for a truthy-or-falsy non-string number (unless a
driver was already found), and `.split` would raise `AttributeError`
for a non-string containing `" "`. -/
def resolve_driver_name (vehicle_drivers : List (String × String))
    (vehicle_number : PyVal) (drv : PyVal) : Except PyErr String :=
  PyVal.strMapGet vehicle_drivers vehicle_number >>= fun d0 =>
    let d1 := d0.getD ""
    let d2 :=
      if d1 ≠ "" then d1
      else
        match drv with
        | .dict dd =>
          if (PyVal.dict dd).truthy then
            Py.stripStr (PyVal.pyStr (PyVal.getD dd "first_name" (.str "")) ++ " " ++
              PyVal.pyStr (PyVal.getD dd "last_name" (.str "")))
          else ""
        | _ => ""
    if d2 ≠ "" then pure d2
    else
      vehicle_number.containsSpace >>= fun hsp =>
        if hsp then
          match vehicle_number with
          | .str s =>
            let d3 := Py.parse_name_from_vehicle s
            pure (if d3 ≠ "" then d3 else "Unknown")
          | _ => .error "AttributeError"
        else pure "Unknown"

namespace DailySpeeding

/-- `SALES_ADMIN_VEHICLES` (`daily_speeding_report.py:135-137`). -/
def SALES_ADMIN_VEHICLES : List String := ["Safety WIN-RAT-2529 Sean Fry"]

/-- `VEHICLE_PREFIX_MAP` (`daily_speeding_report.py:111-130`), first
match wins. -/
def VEHICLE_PREFIX_MAP : List (String × String × String) := [
  ("LL-RAT", "Rathole", "Levelland"),
  ("MID-RAT", "Rathole", "Midland"),
  ("WIN-RAT", "Rathole", "Ohio"),
  ("BAR-RAT", "Rathole", "Barstow"),
  ("JOU-RAT", "Rathole", "Jourdanton"),
  ("TOW-RAT", "Rathole", "Pennsylvania"),
  ("OK-RAT", "Rathole", "Oklahoma"),
  ("DS-RAT", "Rathole", ""),
  ("BTI-", "Butch\x27s Trucking", ""),
  ("VAL-", "Valor Energy Services", ""),
  ("TD-", "Transcend Drilling", ""),
  ("POL-", "Poly Pipe", ""),
  ("ENV-", "Environmental", ""),
  ("FEN-", "Fencing", ""),
  ("ANC-", "Anchors", ""),
  ("PIT-", "Pit Lining", ""),
  ("CON-", "Construction", ""),
  ("SALES", "Sales/Admin", "")]

/-- `_CASING_RE = ^\d+C\b` (`daily_speeding_report.py:132`): leading
digits, a `C`, then a non-word character or the end. -/
def casing_re_match (s : String) : Bool :=
  let digits := s.data.takeWhile Char.isDigit
  let rest := s.data.dropWhile Char.isDigit
  !digits.isEmpty &&
    (match rest with
     | 'C' :: r2 =>
       match r2 with
       | [] => true
       | c :: _ => !(c.isAlpha || c.isDigit || c = '_')
     | _ => false)

/-- `_division_from_prefix` (`daily_speeding_report.py:140-157`): the
vehicle-number → (division, yard) fallback.  Called with a non-string
(`.upper()` unavailable) it raises. -/
def division_from_vehicle_number (v : PyVal) : Except PyErr (String × String) :=
  match v with
  | .str vehicle_number =>
    .ok (if SALES_ADMIN_VEHICLES.contains vehicle_number then ("Sales/Admin", "")
      else
        let vn := Py.upperStr vehicle_number
        if Py.containsStr "SHAWNEE" vn then ("Rathole", "Oklahoma")
        else
          match VEHICLE_PREFIX_MAP.find? (fun r => Py.startsWithStr (Py.upperStr r.1) vn) with
          | some r => (r.2.1, r.2.2)
          | Option.none =>
            if casing_re_match vn then ("Casing", "") else ("Unassigned", ""))
  | _ => .error "AttributeError"

/-- The raw vehicle number of a speeding event
(`daily_speeding_report.py:409-413`): the `vehicle` dict's `number`
entry is kept unconverted; a non-dict `vehicle` value goes through
`str()`. -/
def vehicle_number_of (event : List (String × PyVal)) : PyVal :=
  match PyVal.getD event "vehicle" (.dict []) with
  | .dict d => PyVal.getD d "number" (.str "Unknown")
  | w => .str (PyVal.pyStr w)

/-- `enrich_event` (`daily_speeding_report.py:386-478`).  Python floats
are exact rationals.  The raising operations are the three speed
conversions (`TypeError` on a truthy non-numeric field), the `:.4f`
location formatting (truthy non-numeric lat/lon), and the raw vehicle
number: unhashable at the driver lookup (`TypeError`), non-string at
`" " in vehicle_number` (`TypeError`) or at `.upper()` inside
`_division_from_prefix` (`AttributeError`) — so every run that returns
a record has a string vehicle number, and the record field stores its
`str()` payload. -/
def enrich_event (event : List (String × PyVal))
    (vehicle_drivers : List (String × String))
    (vehicle_groups : List (String × (String × String))) :
    Except PyErr SpeedingEvent := do
  let max_speed_kmh := PyVal.pyOr (PyVal.getN event "max_vehicle_speed")
    (PyVal.pyOr (PyVal.getN event "avg_vehicle_speed") (.num 0))
  let msk ← max_speed_kmh.mulConst KMH_TO_MPH
  let max_speed := Py.roundDec 1 msk
  let posted_kmh := PyVal.pyOr (PyVal.getN event "min_posted_speed_limit_in_kph") (.num 0)
  let pk ← posted_kmh.mulConst KMH_TO_MPH
  let posted_speed := Py.roundDec 1 pk
  let over_kmh := PyVal.pyOr (PyVal.getN event "max_over_speed_in_kph")
    (PyVal.pyOr (PyVal.getN event "avg_over_speed_in_kph") (.num 0))
  let ov ← over_kmh.mulConst KMH_TO_MPH
  let overspeed := Py.roundDec 1 ov
  let tier := speed_tier overspeed max_speed
  let vehicle_number := vehicle_number_of event
  let driver_name ← resolve_driver_name vehicle_drivers vehicle_number
    (PyVal.getN event "driver")
  let division_yard ← (if PyVal.memStrList vehicle_number SALES_ADMIN_VEHICLES then
      pure ("Sales/Admin", "")
    else
      PyVal.strMapGet vehicle_groups vehicle_number >>= fun dg =>
        match dg with
        | some dy => pure dy
        | Option.none => division_from_vehicle_number vehicle_number :
    Except PyErr (String × String))
  let duration_str := PyVal.format_duration (PyVal.getD event "duration" (.num 0))
  let metadata := PyVal.getD event "metadata" (.dict [])
  let severity :=
    match metadata with
    | .dict d => PyVal.pyStr (PyVal.getD d "severity" (.str "unknown"))
    | _ => "unknown"
  let timestamp := PyVal.pyOr (PyVal.getN event "start_time")
    (PyVal.getD event "end_time" (.str ""))
  let formatted_time := timestamp.utc_to_central
  let lat := PyVal.getN event "start_lat"
  let lon := PyVal.getN event "start_lon"
  let maps_link :=
    if lat.truthy && lon.truthy then
      "https://www.google.com/maps?q=" ++ lat.pyStr ++ "," ++ lon.pyStr
    else ""
  let location ←
    if lat.truthy && lon.truthy then do
      let la ← lat.formatF4
      let lo ← lon.formatF4
      pure (la ++ ", " ++ lo)
    else pure "Unknown"
  pure {
    driver := driver_name, vehicle := vehicle_number.pyStr,
    speed := max_speed, posted_speed := posted_speed, overspeed := overspeed,
    duration := duration_str, severity := severity, time := formatted_time,
    location := location, maps_link := maps_link, tier := tier,
    division := division_yard.1, yard := division_yard.2 }

end DailySpeeding

namespace DailyCamera

/-- `EVENT_DISPLAY_NAMES` (`daily_casing_camera_report.py:223-241`). -/
def EVENT_DISPLAY_NAMES : List (String × String) := [
  ("distraction", "Distraction"), ("cell_phone", "Cell Phone"),
  ("drowsiness", "Drowsiness"), ("close_following", "Close Following"),
  ("forward_collision_warning", "Forward Collision Warning"),
  ("collision", "Collision"), ("near_collision", "Near Collision"),
  ("stop_sign_violation", "Stop Sign Violation"),
  ("unsafe_lane_change", "Unsafe Lane Change"), ("lane_swerving", "Lane Swerving"),
  ("hard_brake", "Hard Brake"), ("seat_belt_violation", "Seatbelt Violation"),
  ("camera_obstruction", "Camera Obstruction"), ("smoking", "Smoking"),
  ("hard_accel", "Hard Acceleration"), ("hard_corner", "Hard Corner"),
  ("speed_violation", "Speed Violation")]

/-- `_normalize_event_type` applied to the raw type value extracted from
the event dict: a falsy value yields `"unknown"` before any string
method is touched; a truthy non-string raises on `.lower()`. -/
def normalize_event_type_py (v : PyVal) : Except PyErr String :=
  if !v.truthy then .ok "unknown"
  else
    match v with
    | .str s => .ok (normalize_event_type s)
    | _ => .error "AttributeError"

/-- `_event_display_name` (`daily_casing_camera_report.py:264-271`); in
every reachable call the truthy raw type is a string. -/
def event_display_name (event_type : String) (raw_type : PyVal) : String :=
  match EVENT_DISPLAY_NAMES.lookup event_type with
  | some n => n
  | Option.none =>
    let display := if raw_type.truthy then raw_type.pyStr else event_type
    Py.titleStr (Py.replaceChar '_' ' ' display)

/-- The nested sub-object search of the video-URL block
(`daily_casing_camera_report.py:697-704`): first of the `video`, `media`,
`recording` sub-dicts yielding a truthy `url`/`video_url`. -/
def video_sub_search (d : List (String × PyVal)) : List String → PyVal
  | [] => .str ""
  | k :: ks =>
    match PyVal.getN d k with
    | .dict sub =>
      if (PyVal.dict sub).truthy then
        let u := PyVal.pyOr (PyVal.getD sub "url" (.str "")) (PyVal.getD sub "video_url" (.str ""))
        if u.truthy then u else video_sub_search d ks
      else video_sub_search d ks
    | _ => video_sub_search d ks

/-- The video-URL block (`daily_casing_camera_report.py:684-714`). -/
def video_url_of (camera_media : PyVal) : PyVal :=
  if !camera_media.truthy then .str ""
  else
    match camera_media with
    | .str s => .str s
    | .dict d =>
      let u := PyVal.pyOr (PyVal.getD d "url" (.str ""))
        (PyVal.pyOr (PyVal.getD d "video_url" (.str ""))
          (PyVal.pyOr (PyVal.getD d "s3_url" (.str ""))
            (PyVal.pyOr (PyVal.getD d "media_url" (.str ""))
              (PyVal.getD d "recording_url" (.str "")))))
      if u.truthy then u else video_sub_search d ["video", "media", "recording"]
    | .list (f :: _) =>
      match f with
      | .dict fd =>
        PyVal.pyOr (PyVal.getD fd "url" (.str ""))
          (PyVal.pyOr (PyVal.getD fd "video_url" (.str "")) (PyVal.getD fd "s3_url" (.str "")))
      | .str fs => .str fs
      | _ => .str ""
    | _ => .str ""

/-- The raw vehicle number of a camera event
(`daily_casing_camera_report.py:633-637`): the `vehicle` dict's `number`
entry is kept unconverted; a non-dict `vehicle` value goes through
`str()` when truthy, else `"Unknown"`. -/
def vehicle_number_of (event : List (String × PyVal)) : PyVal :=
  match PyVal.getD event "vehicle" (.dict []) with
  | .dict d => PyVal.getD d "number" (.str "Unknown")
  | w => .str (if w.truthy then w.pyStr else "Unknown")

/-- `enrich_camera_event` (`daily_casing_camera_report.py:625-734`).
The speed conversion is wrapped in the source's own `try/except`
(degrading to 0), so the raising operations are a truthy non-string
raw type, the `:.4f` location formatting of truthy non-numeric lat/lon
values, and the raw vehicle number: unhashable at the driver lookup
(`TypeError`) or non-string at `" " in vehicle_number` (`TypeError`,
reached only when no driver was resolved).  A hashable non-string
number whose driver comes from the event's `driver` sub-object does
complete; the source record keeps the raw value, which every consumer
renders with `str()`, and the model stores that rendering. -/
def enrich_camera_event (event : List (String × PyVal))
    (vehicle_drivers vehicle_yards : List (String × String)) (raw_type : PyVal) :
    Except PyErr CameraEvent := do
  let event_type ← normalize_event_type_py raw_type
  let tier := classify_tier event_type
  let display_name := event_display_name event_type raw_type
  let vehicle_number := vehicle_number_of event
  let driver_name ← resolve_driver_name vehicle_drivers vehicle_number
    (PyVal.getN event "driver")
  let yardOpt ← PyVal.strMapGet vehicle_yards vehicle_number
  let yard := yardOpt.getD ""
  let speed_kmh := PyVal.pyOr (PyVal.getN event "start_speed")
    (PyVal.pyOr (PyVal.getN event "max_speed")
      (PyVal.pyOr (PyVal.getN event "end_speed") (.num 0)))
  let speed_mph : ℚ :=
    if speed_kmh.truthy then
      match speed_kmh.toFloat with
      | .ok q => Py.roundDec 1 (q * KMH_TO_MPH)
      | .error _ => 0
    else 0
  let duration_raw := PyVal.pyOr (PyVal.getN event "duration")
    (PyVal.pyOr (PyVal.getN event "duration_seconds") (.num 0))
  let duration_str := duration_raw.format_duration
  let timestamp := PyVal.pyOr (PyVal.getN event "start_time")
    (PyVal.pyOr (PyVal.getN event "event_time") (PyVal.getD event "created_at" (.str "")))
  let formatted_time := timestamp.utc_to_central
  let video_url := (video_url_of (PyVal.getN event "camera_media")).pyStr
  let lat := PyVal.pyOr (PyVal.getN event "lat")
    (PyVal.pyOr (PyVal.getN event "start_lat") (PyVal.getN event "latitude"))
  let lon := PyVal.pyOr (PyVal.getN event "lon")
    (PyVal.pyOr (PyVal.getN event "start_lon") (PyVal.getN event "longitude"))
  let location ←
    if lat.truthy && lon.truthy then do
      let la ← lat.formatF4
      let lo ← lon.formatF4
      pure (la ++ ", " ++ lo)
    else pure ""
  pure {
    driver := driver_name, vehicle := vehicle_number.pyStr,
    event_type := event_type, raw_type := raw_type.pyStr,
    display_name := display_name, tier := tier, speed := speed_mph,
    duration := duration_str, time := formatted_time,
    video_url := video_url, location := location, yard := yard }

end DailyCamera

namespace DailyCamera

/-- Severity rank used by `_event_sort_key`
(`daily_casing_camera_report.py:274-278`): tier order then
`EVENT_SEVERITY_ORDER` with default 50. -/
def severity_rank (e : CameraEvent) : ℕ :=
  (EVENT_SEVERITY_ORDER.lookup e.event_type).getD 50

/-- `_event_sort_key` as a stable-sort comparison: `(tierOrder, severity)`
ascending. -/
def event_sort_le (a b : CameraEvent) : Bool :=
  decide (tierOrderVal a.tier < tierOrderVal b.tier ∨
    (tierOrderVal a.tier = tierOrderVal b.tier ∧ severity_rank a ≤ severity_rank b))

/-- The raw type extracted by the filter loop
(`daily_casing_camera_report.py:574-579`). -/
def camera_raw_type (evt : List (String × PyVal)) : PyVal :=
  PyVal.pyOr (PyVal.getD evt "type" (.str ""))
    (PyVal.pyOr (PyVal.getD evt "event_type" (.str ""))
      (PyVal.pyOr (PyVal.getD evt "behavior_type" (.str "")) (.str "")))

/-- The timestamp string candidate of the filter loop
(`daily_casing_camera_report.py:583-587`). -/
def camera_evt_time (evt : List (String × PyVal)) : PyVal :=
  PyVal.pyOr (PyVal.getD evt "start_time" (.str ""))
    (PyVal.pyOr (PyVal.getD evt "event_time" (.str ""))
      (PyVal.getD evt "created_at" (.str "")))

/-- The instant of the event's timestamp, when it parses.  A non-string
value raises inside the source's `try` and is treated exactly like a
parse failure (the `except: pass` keeps the event). -/
def camera_time_instant (evt : List (String × PyVal)) : Option ℚ :=
  match camera_evt_time evt with
  | .str s => Py.parseIso (Py.replaceSub "Z" "+00:00" s)
  | _ => Option.none

/-- The vehicle number string computed by the filter loop
(`daily_casing_camera_report.py:598-602`). -/
def filter_vehicle_number (evt : List (String × PyVal)) : String :=
  match PyVal.getD evt "vehicle" (.dict []) with
  | .dict d => PyVal.pyStr (PyVal.getD d "number" (.str ""))
  | w => if w.truthy then w.pyStr else ""

/-- The vehicle filter (`daily_casing_camera_report.py:604-606`):
`true` when the event is kept. -/
def vehicle_pass (evt : List (String × PyVal)) (casing_vehicles : List String) : Bool :=
  !(filter_vehicle_number evt ≠ "" && !casing_vehicles.isEmpty &&
    !casing_vehicles.contains (filter_vehicle_number evt))

/-- Per-wrapper decision of the filter loop. -/
inductive StepRes where
  | keep (evt : List (String × PyVal)) (raw_type : PyVal)
  | skipWindow
  | skipVehicle
deriving Repr

/-- One iteration of the filter loop of `get_camera_events_for_date`
(`daily_casing_camera_report.py:570-606`): unwrap the envelope, drop
events with a parseable timestamp outside the window, drop non-Casing
vehicles, keep the rest — including every event whose timestamp fails to
parse. -/
def classify_wrapper (w : List (String × PyVal)) (startE endE : ℚ)
    (casing_vehicles : List String) : Except PyErr StepRes :=
  match (List.lookup "driver_performance_event" w).getD (.dict w) with
  | .dict evt =>
    let proceed : StepRes :=
      if vehicle_pass evt casing_vehicles then .keep evt (camera_raw_type evt)
      else .skipVehicle
    match camera_time_instant evt with
    | some t => .ok (if !(startE ≤ t ∧ t ≤ endE) then .skipWindow else proceed)
    | Option.none => .ok proceed
  | _ => .error "AttributeError"

/-- The filter loop as a fold, accumulating the kept enriched events and
the two diagnostic counts (non-Casing, outside-window) that the source
prints (`daily_casing_camera_report.py:619`). -/
def camera_filter_go (startE endE : ℚ)
    (vehicle_drivers vehicle_yards : List (String × String))
    (casing_vehicles : List String) :
    List (List (String × PyVal)) → List CameraEvent × ℕ × ℕ →
      Except PyErr (List CameraEvent × ℕ × ℕ)
  | [], acc => .ok acc
  | w :: rest, (out, nc, ow) => do
    let r ← classify_wrapper w startE endE casing_vehicles
    match r with
    | .skipWindow =>
      camera_filter_go startE endE vehicle_drivers vehicle_yards casing_vehicles rest
        (out, nc, ow + 1)
    | .skipVehicle =>
      camera_filter_go startE endE vehicle_drivers vehicle_yards casing_vehicles rest
        (out, nc + 1, ow)
    | .keep evt raw_type => do
      let e ← enrich_camera_event evt vehicle_drivers vehicle_yards raw_type
      camera_filter_go startE endE vehicle_drivers vehicle_yards casing_vehicles rest
        (out ++ [e], nc, ow)

/-- The classify-and-filter stage of `get_camera_events_for_date`
(`daily_casing_camera_report.py:564-622`): returns the kept events
sorted by `(tier, severity)` together with the printed non-Casing and
outside-window counts. -/
def get_camera_events_filtered (raw_events : List (List (String × PyVal)))
    (startE endE : ℚ) (vehicle_drivers vehicle_yards : List (String × String))
    (casing_vehicles : List String) : Except PyErr (List CameraEvent × ℕ × ℕ) := do
  let (lst, nc, ow) ← camera_filter_go startE endE vehicle_drivers vehicle_yards
    casing_vehicles raw_events ([], 0, 0)
  pure (Py.stableSort event_sort_le lst, nc, ow)

end DailyCamera

namespace Weekly

/-- The per-form row filter of `get_kpa_data_weekly`
(`weekly_casing_briefing.py:819-833`): drop the duplicated header row,
parse the `date` field — a row whose date fails to parse is dropped by
the `except: continue` — keep rows whose millisecond timestamp lies in
the window, adding the `kpa_link` field when a report number is
present. -/
def kpa_filter_rows (rows : List KpaRow) (start_ms end_ms : ℤ) : List KpaRow :=
  match rows with
  | [] => []
  | row :: rest =>
    if (row.lookup "report number").getD "" = "Report Number" then
      kpa_filter_rows rest start_ms end_ms
    else
      match Py.parseKpaDate ((row.lookup "date").getD "") with
      | some secs =>
        let row_date_ms := secs * 1000
        if start_ms ≤ row_date_ms ∧ row_date_ms ≤ end_ms then
          (let report_num := (row.lookup "report number").getD ""
           let row2 := if report_num ≠ "" then
             row ++ [("kpa_link",
               "https://brhas-ees.kpaehs.com/forms/responses/view/" ++ report_num)]
             else row
           row2 :: kpa_filter_rows rest start_ms end_ms)
        else kpa_filter_rows rest start_ms end_ms
      | Option.none => kpa_filter_rows rest start_ms end_ms

end Weekly

/-- Whether an `Except` computation completed without raising. -/
def exceptIsOk : Except PyErr α → Bool
  | .ok _ => true
  | .error _ => false

/-- The field `k` of the raw event is numeric or falsy (absent fields
read as `None`, which is falsy). -/
def fieldNumericOrFalsy (event : List (String × PyVal)) (k : String) : Bool :=
  (PyVal.getN event k).numericOrFalsy

section ClaimC6

lemma mulConst_pyOr2_ok (a b : PyVal) (c : ℚ)
    (ha : a.numericOrFalsy = true) (hb : b.numericOrFalsy = true) :
    ∃ q, (PyVal.pyOr a (PyVal.pyOr b (.num 0))).mulConst c = .ok q := by
  cases a <;> cases b <;>
    simp_all [PyVal.numericOrFalsy, PyVal.pyOr, PyVal.truthy, PyVal.mulConst] <;>
    first
      | exact ⟨_, rfl⟩
      | (split_ifs <;> exact ⟨_, rfl⟩)

lemma mulConst_pyOr1_ok (a : PyVal) (c : ℚ) (ha : a.numericOrFalsy = true) :
    ∃ q, (PyVal.pyOr a (.num 0)).mulConst c = .ok q := by
  cases a <;>
    simp_all [PyVal.numericOrFalsy, PyVal.pyOr, PyVal.truthy, PyVal.mulConst] <;>
    first
      | exact ⟨_, rfl⟩
      | (split_ifs <;> exact ⟨_, rfl⟩)

lemma formatF4_ok_of_numericOrFalsy (v : PyVal) (hv : v.numericOrFalsy = true)
    (ht : v.truthy = true) : ∃ s, v.formatF4 = .ok s := by
  cases v <;> simp_all [PyVal.numericOrFalsy, PyVal.truthy, PyVal.formatF4] <;>
    exact ⟨_, rfl⟩

lemma normalize_event_type_py_ok (v : PyVal) (hv : v.strOrFalsy = true) :
    ∃ s, DailyCamera.normalize_event_type_py v = .ok s := by
  cases v <;>
    simp_all [PyVal.strOrFalsy, PyVal.truthy, DailyCamera.normalize_event_type_py] <;>
    first
      | exact ⟨_, rfl⟩
      | (split_ifs <;> exact ⟨_, rfl⟩)

lemma numericOrFalsy_pyOr (a b : PyVal) (ha : a.numericOrFalsy = true)
    (hb : b.numericOrFalsy = true) : (PyVal.pyOr a b).numericOrFalsy = true := by
  unfold PyVal.pyOr
  split_ifs <;> assumption

end ClaimC6

lemma isOk_bind {α β : Type} (x : Except PyErr α) (f : α → Except PyErr β)
    (hx : ∃ a, x = .ok a) (hf : ∀ a, exceptIsOk (f a) = true) :
    exceptIsOk (x >>= f) = true := by
  obtain ⟨a, ha⟩ := hx
  rw [ha]
  exact hf a

lemma except_bind_ok {α β : Type} (a : α) (f : α → Except PyErr β) :
    ((Except.ok a : Except PyErr α) >>= f) = f a := rfl

lemma except_bind_error {α β : Type} (er : PyErr) (f : α → Except PyErr β) :
    ((Except.error er : Except PyErr α) >>= f) = Except.error er := rfl

lemma division_str_ok (vn : String) :
    ∃ dy, DailySpeeding.division_from_vehicle_number (PyVal.str vn) = .ok dy := by
  simp only [DailySpeeding.division_from_vehicle_number]
  exact ⟨_, rfl⟩

lemma isOk_bind2 {α β : Type} (x : Except PyErr α) (f : α → Except PyErr β)
    (hx : exceptIsOk x = true) (hf : ∀ a, exceptIsOk (f a) = true) :
    exceptIsOk (x >>= f) = true := by
  cases x with
  | error er => exact absurd hx (by simp [exceptIsOk])
  | ok a => exact hf a

lemma resolve_str_ok (d : List (String × String)) (s : String) (drv : PyVal) :
    exceptIsOk (resolve_driver_name d (.str s) drv) = true := by
  simp only [resolve_driver_name, PyVal.strMapGet, PyVal.containsSpace, except_bind_ok]
  split_ifs <;> rfl

lemma division_ok2 (s : String) (g : List (String × (String × String))) :
    exceptIsOk ((if PyVal.memStrList (.str s) DailySpeeding.SALES_ADMIN_VEHICLES then
        pure ("Sales/Admin", "")
      else
        PyVal.strMapGet g (.str s) >>= fun dg =>
          match dg with
          | some dy => pure dy
          | Option.none => DailySpeeding.division_from_vehicle_number (.str s) :
      Except PyErr (String × String))) = true := by
  by_cases h : PyVal.memStrList (.str s) DailySpeeding.SALES_ADMIN_VEHICLES
  · rw [if_pos h]
    rfl
  · rw [if_neg h,
      show PyVal.strMapGet g (PyVal.str s) = .ok (g.lookup s) from rfl,
      except_bind_ok]
    cases hl : g.lookup s with
    | some dy => rfl
    | none =>
      obtain ⟨a, ha⟩ := division_str_ok s
      show exceptIsOk (DailySpeeding.division_from_vehicle_number (PyVal.str s)) = true
      rw [ha]
      rfl

lemma isOk_loctail {β : Type} (lat lon : PyVal) (fb : String)
    (ha : lat.numericOrFalsy = true) (hb : lon.numericOrFalsy = true)
    (jp : String → Except PyErr β)
    (hjp : ∀ a, exceptIsOk (jp a) = true) :
    exceptIsOk (if lat.truthy && lon.truthy then do
        let la ← lat.formatF4
        let lo ← lon.formatF4
        let y ← (pure (la ++ ", " ++ lo) : Except PyErr String)
        jp y
      else do
        let y ← (pure fb : Except PyErr String)
        jp y) = true := by
  by_cases h : lat.truthy && lon.truthy
  · rw [if_pos h]
    obtain ⟨hla, hlo⟩ := Bool.and_eq_true_iff.mp h
    obtain ⟨sa, hsa⟩ := formatF4_ok_of_numericOrFalsy lat ha hla
    obtain ⟨sb, hsb⟩ := formatF4_ok_of_numericOrFalsy lon hb hlo
    rw [hsa]
    show exceptIsOk ((PyVal.formatF4 lon).bind _) = true
    rw [hsb]
    exact hjp _
  · rw [if_neg h]
    exact hjp _

/-- C6 counterexamples: a raw speeding event whose `max_vehicle_speed`
field holds a (truthy) string makes `enrich_event` raise `TypeError`
(`"fast" * 0.621371` is invalid); and a `vehicle` dict whose `number`
is the number `123` makes both enrichers raise `TypeError` at the
`" " in vehicle_number` test — none of these degrade to a sentinel. -/
theorem C6_enrich_raises :
    DailySpeeding.enrich_event [("max_vehicle_speed", PyVal.str "fast")] [] []
        = .error "TypeError" ∧
    DailySpeeding.enrich_event [("vehicle", PyVal.dict [("number", PyVal.num 123)])] [] []
        = .error "TypeError" ∧
    DailyCamera.enrich_camera_event
        [("vehicle", PyVal.dict [("number", PyVal.num 123)])] [] []
        (PyVal.str "hard_brake")
        = .error "TypeError" :=
  ⟨rfl, rfl, rfl⟩

/-- C6 (amended): the enrichers return a normalized record with the
documented sentinels for missing fields — `"Unknown"` driver and vehicle,
empty yard, `"Unassigned"` division, 0 speeds, `"N/A"` duration, ORANGE
tier for unrecognized camera types — and never raise **provided** the
numeric fields (speeds, lat/lon) are numeric or absent/falsy, the raw
camera type is a string or falsy, and the vehicle number is a string
(either the `vehicle` field is absent/non-dict, so `str()` is applied,
or its `number` entry is a string); a truthy non-numeric value in the
speed or lat/lon fields, and a non-string vehicle number, raise instead
of degrading (see the counterexamples). -/
theorem C6_enrich_no_raise :
    (∀ (event : List (String × PyVal)) (d : List (String × String))
        (g : List (String × (String × String))),
      (∀ k ∈ ["max_vehicle_speed", "avg_vehicle_speed", "min_posted_speed_limit_in_kph",
        "max_over_speed_in_kph", "avg_over_speed_in_kph", "start_lat", "start_lon"],
        fieldNumericOrFalsy event k = true) →
      (DailySpeeding.vehicle_number_of event).isStr = true →
      exceptIsOk (DailySpeeding.enrich_event event d g) = true) ∧
    (∀ (event : List (String × PyVal)) (d y : List (String × String)) (rt : PyVal),
      rt.strOrFalsy = true →
      (∀ k ∈ ["lat", "start_lat", "latitude", "lon", "start_lon", "longitude"],
        fieldNumericOrFalsy event k = true) →
      (DailyCamera.vehicle_number_of event).isStr = true →
      exceptIsOk (DailyCamera.enrich_camera_event event d y rt) = true) ∧
    ((DailySpeeding.enrich_event [] [] []).map
      (fun e => (e.driver, e.vehicle, e.yard, e.division, e.duration, e.severity, e.location))
      = .ok ("Unknown", "Unknown", "", "Unassigned", "N/A", "unknown", "Unknown")) ∧
    ((DailySpeeding.enrich_event [] [] []).map (fun e => (e.speed, e.overspeed, e.tier))
      = .ok (0, 0, .YELLOW)) ∧
    ((DailyCamera.enrich_camera_event [] [] [] (.str "")).map
      (fun e => (e.driver, e.vehicle, e.yard, e.event_type, e.tier, e.display_name,
        e.duration, e.speed, e.video_url, e.location))
      = .ok ("Unknown", "Unknown", "", "unknown", .ORANGE, "Unknown", "N/A", 0, "", "")) := by
  refine ⟨?_, ?_, ?_, ?_, ?_⟩
  · intro event d g hnum hveh
    obtain ⟨s, hs⟩ := PyVal.isStr_spec _ hveh
    unfold DailySpeeding.enrich_event
    rw [hs]
    apply isOk_bind _ _ (mulConst_pyOr2_ok _ _ _ (hnum _ (by simp)) (hnum _ (by simp)))
    intro msk
    apply isOk_bind _ _ (mulConst_pyOr1_ok _ _ (hnum _ (by simp)))
    intro pk
    apply isOk_bind _ _ (mulConst_pyOr2_ok _ _ _ (hnum _ (by simp)) (hnum _ (by simp)))
    intro ov
    apply isOk_bind2 _ _ (resolve_str_ok d s (PyVal.getN event "driver"))
    intro dn
    apply isOk_bind2 _ _ (division_ok2 s g)
    intro dy
    apply isOk_loctail _ _ _ (hnum _ (by simp)) (hnum _ (by simp))
    intro loc
    rfl
  · intro event d y rt hrt hnum hveh
    obtain ⟨s, hs⟩ := PyVal.isStr_spec _ hveh
    unfold DailyCamera.enrich_camera_event
    rw [hs]
    apply isOk_bind _ _ (normalize_event_type_py_ok rt hrt)
    intro et
    apply isOk_bind2 _ _ (resolve_str_ok d s (PyVal.getN event "driver"))
    intro dn
    apply isOk_bind2 _ _ (rfl : exceptIsOk (PyVal.strMapGet y (.str s)) = true)
    intro yd
    apply isOk_loctail _ _ _
      (numericOrFalsy_pyOr _ _ (hnum _ (by simp))
        (numericOrFalsy_pyOr _ _ (hnum _ (by simp)) (hnum _ (by simp))))
      (numericOrFalsy_pyOr _ _ (hnum _ (by simp))
        (numericOrFalsy_pyOr _ _ (hnum _ (by simp)) (hnum _ (by simp))))
    intro loc
    rfl
  · show Except.ok ("Unknown", "Unknown", "", "Unassigned",
      PyVal.format_duration (PyVal.num 0), "unknown", "Unknown") = _
    rw [show PyVal.format_duration (PyVal.num 0) = "N/A" from by
      simp [PyVal.format_duration]]
  · have h0 : Py.roundDec 1 ((0 : ℚ) * KMH_TO_MPH) = 0 := by
      rw [zero_mul]
      exact roundDec_zero_eq 1
    show Except.ok (Py.roundDec 1 (0 * KMH_TO_MPH), Py.roundDec 1 (0 * KMH_TO_MPH),
      DailySpeeding.speed_tier (Py.roundDec 1 (0 * KMH_TO_MPH))
        (Py.roundDec 1 (0 * KMH_TO_MPH))) = _
    rw [h0]
    norm_num [DailySpeeding.speed_tier]
  · show Except.ok ("Unknown", "Unknown", "", "unknown", Tier.ORANGE, "Unknown",
      PyVal.format_duration (PyVal.num 0),
      (if (PyVal.num 0).truthy then
        match (PyVal.num 0).toFloat with
        | .ok q => Py.roundDec 1 (q * KMH_TO_MPH)
        | .error _ => 0
      else 0), "", "") = _
    rw [show PyVal.format_duration (PyVal.num 0) = "N/A" from by
        simp [PyVal.format_duration],
      show (PyVal.num 0).truthy = false from by simp [PyVal.truthy]]
    simp

/-- C6 witness: a raw speeding event with a numeric speed field (and a
raw camera event with a string type) enrich without raising. -/
theorem C6_enrich_no_raise_witness :
    exceptIsOk (DailySpeeding.enrich_event [("max_vehicle_speed", PyVal.num 100)] [] [])
        = true ∧
    exceptIsOk (DailyCamera.enrich_camera_event [("start_lat", PyVal.num 32)] [] []
        (PyVal.str "hard_brake")) = true :=
  ⟨C6_enrich_no_raise.1 [("max_vehicle_speed", PyVal.num 100)] [] [] (by decide) rfl,
   C6_enrich_no_raise.2.1 [("start_lat", PyVal.num 32)] [] [] (PyVal.str "hard_brake")
     (by decide) (by decide) rfl⟩

lemma except_map_ok {α β : Type} (f : α → β) (a : α) :
    (f <$> (Except.ok a : Except PyErr α)) = .ok (f a) := rfl

lemma except_map_error {α β : Type} (f : α → β) (er : PyErr) :
    (f <$> (Except.error er : Except PyErr α)) = .error er := rfl

lemma classify_unparseable (w evt : List (String × PyVal)) (startE endE : ℚ)
    (c : List String)
    (henv : (List.lookup "driver_performance_event" w).getD (.dict w) = .dict evt)
    (ht : DailyCamera.camera_time_instant evt = Option.none)
    (hv : DailyCamera.vehicle_pass evt c = true) :
    DailyCamera.classify_wrapper w startE endE c
      = .ok (.keep evt (DailyCamera.camera_raw_type evt)) := by
  simp only [DailyCamera.classify_wrapper, henv, ht, hv, if_true]

lemma camera_go_mono (startE endE : ℚ) (d y : List (String × String))
    (c : List String) (l : List (List (String × PyVal))) :
    ∀ out nc ow res,
      DailyCamera.camera_filter_go startE endE d y c l (out, nc, ow) = .ok res →
      ∀ e ∈ out, e ∈ res.1 := by
  induction l with
  | nil =>
    intro out nc ow res h e he
    simp only [DailyCamera.camera_filter_go, Except.ok.injEq] at h
    rw [← h]
    exact he
  | cons w rest ih =>
    intro out nc ow res h e he
    cases hcw : DailyCamera.classify_wrapper w startE endE c with
    | error er =>
      exact absurd h (by
        simp [DailyCamera.camera_filter_go, hcw, except_bind_error])
    | ok r =>
      cases r with
      | skipWindow =>
        simp only [DailyCamera.camera_filter_go, hcw, except_bind_ok] at h
        exact ih out nc (ow + 1) res h e he
      | skipVehicle =>
        simp only [DailyCamera.camera_filter_go, hcw, except_bind_ok] at h
        exact ih out (nc + 1) ow res h e he
      | keep evt rt =>
        cases hen : DailyCamera.enrich_camera_event evt d y rt with
        | error er =>
          exact absurd h (by
            simp [DailyCamera.camera_filter_go, hcw, hen, except_bind_ok,
              except_bind_error])
        | ok ev =>
          simp only [DailyCamera.camera_filter_go, hcw, hen, except_bind_ok] at h
          exact ih (out ++ [ev]) nc ow res h e (by simp [he])

lemma camera_go_keep (startE endE : ℚ) (d y : List (String × String))
    (c : List String) (w evt : List (String × PyVal))
    (henv : (List.lookup "driver_performance_event" w).getD (.dict w) = .dict evt)
    (ht : DailyCamera.camera_time_instant evt = Option.none)
    (hv : DailyCamera.vehicle_pass evt c = true)
    (l : List (List (String × PyVal))) :
    ∀ out nc ow res, w ∈ l →
      DailyCamera.camera_filter_go startE endE d y c l (out, nc, ow) = .ok res →
      ∃ e, DailyCamera.enrich_camera_event evt d y (DailyCamera.camera_raw_type evt)
        = .ok e ∧ e ∈ res.1 := by
  induction l with
  | nil => intro out nc ow res hmem _; exact absurd hmem (by simp)
  | cons w2 rest ih =>
    intro out nc ow res hmem h
    rcases List.mem_cons.mp hmem with heq | hmem2
    · subst heq
      have hcl := classify_unparseable w evt startE endE c henv ht hv
      cases hen : DailyCamera.enrich_camera_event evt d y
          (DailyCamera.camera_raw_type evt) with
      | error er =>
        exact absurd h (by
          simp [DailyCamera.camera_filter_go, hcl, hen, except_bind_ok,
            except_bind_error])
      | ok ev =>
        simp only [DailyCamera.camera_filter_go, hcl, hen, except_bind_ok] at h
        exact ⟨ev, rfl,
          camera_go_mono startE endE d y c rest (out ++ [ev]) nc ow res h ev
            (by simp)⟩
    · cases hcw : DailyCamera.classify_wrapper w2 startE endE c with
      | error er =>
        exact absurd h (by
          simp [DailyCamera.camera_filter_go, hcw, except_bind_error])
      | ok r =>
        cases r with
        | skipWindow =>
          simp only [DailyCamera.camera_filter_go, hcw, except_bind_ok] at h
          exact ih out nc (ow + 1) res hmem2 h
        | skipVehicle =>
          simp only [DailyCamera.camera_filter_go, hcw, except_bind_ok] at h
          exact ih out (nc + 1) ow res hmem2 h
        | keep evt2 rt2 =>
          cases hen : DailyCamera.enrich_camera_event evt2 d y rt2 with
          | error er =>
            exact absurd h (by
              simp [DailyCamera.camera_filter_go, hcw, hen, except_bind_ok,
                except_bind_error])
          | ok ev =>
            simp only [DailyCamera.camera_filter_go, hcw, hen, except_bind_ok] at h
            exact ih (out ++ [ev]) nc ow res hmem2 h

lemma kpa_filter_sound (s e : ℤ) (rows : List KpaRow) :
    ∀ r ∈ Weekly.kpa_filter_rows rows s e,
      ∃ r0 ∈ rows, ∃ t, Py.parseKpaDate ((r0.lookup "date").getD "") = some t ∧
        s ≤ t * 1000 ∧ t * 1000 ≤ e := by
  induction rows with
  | nil => intro r hr; simp [Weekly.kpa_filter_rows] at hr
  | cons row rest ih =>
    intro r hr
    unfold Weekly.kpa_filter_rows at hr
    by_cases hhdr : (row.lookup "report number").getD "" = "Report Number"
    · rw [if_pos hhdr] at hr
      obtain ⟨r0, hr0, ht2⟩ := ih r hr
      exact ⟨r0, List.mem_cons_of_mem _ hr0, ht2⟩
    · rw [if_neg hhdr] at hr
      cases hp : Py.parseKpaDate ((row.lookup "date").getD "") with
      | none =>
        simp only [hp] at hr
        obtain ⟨r0, hr0, ht2⟩ := ih r hr
        exact ⟨r0, List.mem_cons_of_mem _ hr0, ht2⟩
      | some t =>
        simp only [hp] at hr
        by_cases hw : s ≤ t * 1000 ∧ t * 1000 ≤ e
        · rw [if_pos hw] at hr
          rcases List.mem_cons.mp hr with heq | hmem
          · exact ⟨row, List.mem_cons_self _ _, t, hp, hw.1, hw.2⟩
          · obtain ⟨r0, hr0, ht2⟩ := ih r hmem
            exact ⟨r0, List.mem_cons_of_mem _ hr0, ht2⟩
        · rw [if_neg hw] at hr
          obtain ⟨r0, hr0, ht2⟩ := ih r hr
          exact ⟨r0, List.mem_cons_of_mem _ hr0, ht2⟩

/-- A raw camera wrapper whose timestamp string does not parse. -/
def c4Raw : List (String × PyVal) :=
  [("type", PyVal.str "hard_brake"), ("start_time", PyVal.str "garbage")]

/-- The result of filtering the single unparseable-timestamp wrapper. -/
def c4Res : List DailyCamera.CameraEvent × ℕ × ℕ :=
  ((DailyCamera.get_camera_events_filtered [c4Raw] 0 1 [] [] []).toOption).getD
    ([], 0, 0)

/-- C4: the daily camera path honours the stated policy — an event whose
timestamp fails to parse is still enriched and included in the report
(first conjunct), and events skipped by the time window are surfaced as
the outside-window diagnostic count rather than silently lost (second
conjunct).  The weekly KPA path does NOT: every row it keeps had a
parseable in-window date (third conjunct), so a row whose `date` fails to
parse is silently dropped with no diagnostic — as the concrete dropped
hazard row of the fourth conjunct shows. -/
theorem C4_unparseable_timestamps :
    (∀ (raw_events : List (List (String × PyVal))) (startE endE : ℚ)
        (d y : List (String × String)) (c : List String)
        (w evt : List (String × PyVal)) res,
      w ∈ raw_events →
      (List.lookup "driver_performance_event" w).getD (.dict w) = .dict evt →
      DailyCamera.camera_time_instant evt = Option.none →
      DailyCamera.vehicle_pass evt c = true →
      DailyCamera.get_camera_events_filtered raw_events startE endE d y c
        = .ok res →
      ∃ e, DailyCamera.enrich_camera_event evt d y (DailyCamera.camera_raw_type evt)
        = .ok e ∧ e ∈ res.1) ∧
    (∀ (startE endE : ℚ) (d y : List (String × String)) (c : List String)
        (w : List (String × PyVal)) rest out nc ow,
      DailyCamera.classify_wrapper w startE endE c = .ok .skipWindow →
      DailyCamera.camera_filter_go startE endE d y c (w :: rest) (out, nc, ow)
        = DailyCamera.camera_filter_go startE endE d y c rest (out, nc, ow + 1)) ∧
    (∀ (rows : List KpaRow) (s e : ℤ), ∀ r ∈ Weekly.kpa_filter_rows rows s e,
      ∃ r0 ∈ rows, ∃ t, Py.parseKpaDate ((r0.lookup "date").getD "") = some t ∧
        s ≤ t * 1000 ∧ t * 1000 ≤ e) ∧
    Weekly.kpa_filter_rows
      [[("report number", "55555"), ("date", "not-a-date"),
        ("observation", "hazard found")]] 0 10000000000000000 = [] := by
  refine ⟨?_, ?_, ?_, ?_⟩
  · intro raw startE endE d y c w evt res hmem henv ht hv h
    cases hgo : DailyCamera.camera_filter_go startE endE d y c raw ([], 0, 0) with
    | error er =>
      exact absurd h (by
        simp only [DailyCamera.get_camera_events_filtered, hgo, except_map_error]
        exact fun hc => Except.noConfusion hc)
    | ok acc =>
      obtain ⟨lst, nc, ow⟩ := acc
      simp only [DailyCamera.get_camera_events_filtered, hgo, except_map_ok] at h
      have hres : res = (Py.stableSort DailyCamera.event_sort_le lst, nc, ow) :=
        (Except.ok.inj h).symm
      obtain ⟨e, he, hein⟩ := camera_go_keep startE endE d y c w evt henv ht hv
        raw [] 0 0 (lst, nc, ow) hmem hgo
      refine ⟨e, he, ?_⟩
      rw [hres]
      exact (Py.mem_stableSort _ _ _).mpr hein
  · intro startE endE d y c w rest out nc ow hcw
    simp [DailyCamera.camera_filter_go, hcw, except_bind_ok]
  · exact fun rows s e => kpa_filter_sound s e rows
  · rfl

/-- C4 witness: the concrete unparseable-timestamp wrapper is kept by
the camera filter. -/
theorem C4_unparseable_timestamps_witness :
    ∃ e, DailyCamera.enrich_camera_event c4Raw [] []
      (DailyCamera.camera_raw_type c4Raw) = .ok e ∧ e ∈ c4Res.1 :=
  C4_unparseable_timestamps.1 [c4Raw] 0 1 [] [] [] c4Raw c4Raw c4Res
    (by simp) rfl rfl rfl rfl
